import Mathlib

/-!
Verification development for the art-lang s-expression drawing language
(parser, environment, tree-walking interpreter).

Conventions of the embedding:

* JavaScript IEEE-754 doubles are modelled as exact rationals (`ℚ`).  Every
  arithmetic operation appearing in the checked properties stays on values
  on which double arithmetic is exact, so the abstraction is faithful there.
* The mutable `SymbolTable`/canvas of the interpreter are modelled by
  threading an explicit `Environment` value through evaluation.  The scope
  chain is a list of frames, innermost first; `SymbolTable.set` writes into
  the head frame exactly as the class method writes into `this.symbolTable`.
* JavaScript's unbounded `while (true)` loop in `evaluate_while` and the
  recursive descent of the parser are embedded with an explicit fuel
  parameter (`Nat`); `none` means the fuel ran out, which never happens for
  the runs appearing in the theorems below.
* `Result<T, E>` from core.ts is the inductive `Result`; the evaluator's
  `Expr | undefined` payload is `Option Expr`.
-/

namespace ArtLang

/-- The expression model from types.ts: a tagged union of number, string,
boolean, symbol and list, each carrying an optional source offset. -/
inductive Expr : Type where
  | num (location : Option Nat) (value : ℚ)
  | str (location : Option Nat) (value : String)
  | bool (location : Option Nat) (value : Bool)
  | sym (location : Option Nat) (value : String)
  | list (location : Option Nat) (elements : List Expr)

/-- The source offset carried by an expression (`expr.location`). -/
def Expr.location : Expr → Option Nat
  | .num l _ => l
  | .str l _ => l
  | .bool l _ => l
  | .sym l _ => l
  | .list l _ => l

/-- The `type` tag string of an expression, as used in interpreter error
messages (`evaluated?.type`). -/
def Expr.typeName : Expr → String
  | .num _ _ => "number"
  | .str _ _ => "string"
  | .bool _ _ => "boolean"
  | .sym _ _ => "symbol"
  | .list _ _ => "list"

/-- `LocatedError` from core.ts: message plus optional offset and length. -/
structure LocatedError : Type where
  message : String
  location : Option Nat
  length : Option Nat
  deriving DecidableEq

/-- `Result<T, E>` from core.ts: `Ok(T) | Err(E)`. -/
inductive Result (T E : Type) : Type where
  | ok (value : T)
  | err (value : E)

/-- `locatedError(message, location?, length?)` from core.ts: build an `Err`
carrying a `LocatedError` (call sites pass `none` where the source omits the
optional arguments). -/
def locatedError {T : Type} (message : String) (location : Option Nat)
    (length : Option Nat) : Result T LocatedError :=
  .err ⟨message, location, length⟩

/-- The result type of one evaluation:
`Result<Expr | undefined, LocatedError>`. -/
abbrev EvalResult := Result (Option Expr) LocatedError

/-- One scope's name→value mapping (the `Map<string, Expr>` owned by a
`SymbolTable` instance). -/
abbrev Frame := List (String × Expr)

/-- `Map.get`: the value bound to `name` in this frame, if any. -/
def Frame.get : Frame → String → Option Expr
  | [], _ => none
  | (k, v) :: rest, name => if k = name then some v else Frame.get rest name

/-- `Map.set`: bind `name` to `v`, replacing an existing entry in place or
appending a new one (JavaScript `Map` insertion-order semantics). -/
def Frame.insert : Frame → String → Expr → Frame
  | [], name, v => [(name, v)]
  | (k, w) :: rest, name, v =>
    if k = name then (k, v) :: rest else (k, w) :: Frame.insert rest name v

/-- The scope chain of environment.ts's `SymbolTable` class: the head frame
is the table the handle points at, the tail is its parent chain (empty tail =
root table with `parent = null`). -/
abbrev SymbolTable := List Frame

/-- `SymbolTable.lookup`: check the current scope's map first, then the
parent scopes recursively; absent ↦ `undefined`. -/
def SymbolTable.lookup : SymbolTable → String → Option Expr
  | [], _ => none
  | f :: parents, name =>
    match f.get name with
    | some v => some v
    | none => SymbolTable.lookup parents name

/-- `SymbolTable.set`: write into the table instance the call targets (the
head frame); it does not search the chain. -/
def SymbolTable.set : SymbolTable → String → Expr → SymbolTable
  | [], _, _ => []
  | f :: parents, name, v => f.insert name v :: parents

/-- `SymbolTable.enterScope`: a fresh child table whose parent is this
table. -/
def SymbolTable.enterScope (st : SymbolTable) : SymbolTable := [] :: st

/-- One recorded drawing-surface call of the `MockCanvas` operation log. -/
inductive CanvasOp : Type where
  | beginPath
  | rect (x y w h : ℚ)
  | fillOp
  | strokeOp
  | moveTo (x y : ℚ)
  | lineTo (x y : ℚ)

/-- The drawing surface: mutable string-valued fill/stroke colors plus the
ordered log of path/draw calls (modelled on canvas.ts's `MockCanvas`). -/
structure CanvasState : Type where
  fillStyle : String
  strokeStyle : String
  ops : List CanvasOp

/-- `new MockCanvas()`: default styles are `"#000000"`, no operations yet. -/
def CanvasState.initial : CanvasState :=
  { fillStyle := "#000000", strokeStyle := "#000000", ops := [] }

/-- Record one surface call at the end of the operation log. -/
def CanvasState.push (c : CanvasState) (op : CanvasOp) : CanvasState :=
  { c with ops := c.ops ++ [op] }

/-- environment.ts's `Environment`: the symbol-table chain plus the shared
drawing surface, threaded through every evaluation call. -/
structure Environment : Type where
  symbolTable : SymbolTable
  canvas : CanvasState

/-- The `type` tag of a possibly-`undefined` evaluated value, as interpolated
into error messages (`evaluated?.type || "undefined"`). -/
def typeOrUndefined : Option Expr → String
  | none => "undefined"
  | some e => e.typeName

/-- The truthiness switch shared verbatim by `evaluate_if` and
`evaluate_while`: boolean as-is, number ≠ 0, string ≠ ""; `none` for the
unsupported-type default branch. -/
def truthinessOf : Expr → Option Bool
  | .bool _ b => some b
  | .num _ q => some (decide (q ≠ 0))
  | .str _ s => some (decide (s ≠ ""))
  | _ => none

/-- Modelled from the spec: `BUILTIN_SYMBOLS` from consts.ts, which is not
part of the included sources (only its import is); the list of reserved
operator names is taken from the spec's built-in table. -/
def BUILTIN_SYMBOLS : List String :=
  ["+", "-", "*", "/", ">", ">=", "<", "<=", "=", "if", "let", "set",
   "while", "rgb", "stroke", "fill", "noStroke", "noFill", "rect", "line"]

/-- `evaluate_symbol`: reserved literals `true`/`false` first (they cannot be
shadowed), else chain lookup; absence is the fatal `Symbol <name> undefined`
error at the symbol's offset. -/
def evaluate_symbol (environment : Environment) (location : Option Nat)
    (name : String) : EvalResult :=
  if name = "true" then .ok (some (.bool none true))
  else if name = "false" then .ok (some (.bool none false))
  else
    match environment.symbolTable.lookup name with
    | some val => .ok (some val)
    | none => locatedError ("Symbol " ++ name ++ " undefined") location none

/-- JavaScript `a || b` on optional numeric offsets, as used for the
comparison error location `args[i].location || args[i+1].location`: an
offset of `0` is falsy and falls through to `b`. -/
def jsLocOr : Option Nat → Option Nat → Option Nat
  | some n, b => if n = 0 then b else some n
  | none, b => b

/-- Modelled from the spec: the surface mutation of a `rect` draw — begin
path, add the rectangle, fill if the current fill color is not `"none"`,
stroke if the current stroke color is not `"none"`. -/
def rect_draw (c : CanvasState) (x y w h : ℚ) : CanvasState :=
  let c1 := (c.push .beginPath).push (.rect x y w h)
  let c2 := if c1.fillStyle ≠ "none" then c1.push .fillOp else c1
  if c2.strokeStyle ≠ "none" then c2.push .strokeOp else c2

/-- Modelled from the spec: the surface mutation of a `line` draw — begin
path, move-to, line-to, stroke only if the current stroke color is not
`"none"` (never fills). -/
def line_draw (c : CanvasState) (x1 y1 x2 y2 : ℚ) : CanvasState :=
  let c1 := ((c.push .beginPath).push (.moveTo x1 y1)).push (.lineTo x2 y2)
  if c1.strokeStyle ≠ "none" then c1.push .strokeOp else c1

/-- Modelled from the spec: `noStroke` (arity 0) sets the surface stroke
color to the sentinel `"none"`; this builtin postdates the interpreter
snapshot included in the sources (its dispatch ends at `fill`). -/
def evaluate_noStroke (environment : Environment) (args : List Expr) :
    EvalResult × Environment :=
  match args with
  | [] =>
    (.ok none,
      { environment with
          canvas := { environment.canvas with strokeStyle := "none" } })
  | _ => (locatedError "noStroke requires exactly 0 arguments" none none,
      environment)

/-- Modelled from the spec: `noFill` (arity 0) sets the surface fill color
to the sentinel `"none"`; this builtin postdates the interpreter snapshot
included in the sources. -/
def evaluate_noFill (environment : Environment) (args : List Expr) :
    EvalResult × Environment :=
  match args with
  | [] =>
    (.ok none,
      { environment with
          canvas := { environment.canvas with fillStyle := "none" } })
  | _ => (locatedError "noFill requires exactly 0 arguments" none none,
      environment)

mutual

/-- `evaluate(environment, expr)` from interpreter.ts: numbers, strings and
booleans are self-quoting; symbols and lists dispatch to their evaluators.
The extra `Nat` is fuel for the embedding; every recursive call in this
mutual block consumes one unit. -/
def evaluate : Nat → Environment → Expr →
    Option (EvalResult × Environment)
  | 0, _, _ => none
  | fuel + 1, environment, expr =>
    match expr with
    | .list location elements =>
      evaluate_list fuel environment location elements
    | .sym location name =>
      some (evaluate_symbol environment location name, environment)
    | e => some (.ok (some e), environment)

/-- `evaluate_list`: empty list is fatal; a recognized built-in head symbol
dispatches with the unevaluated remaining elements; anything else is the
`Cannot evaluate list …` error (the source interpolates the list object into
the message, which JavaScript renders as `[object Object]`). -/
def evaluate_list : Nat → Environment → Option Nat → List Expr →
    Option (EvalResult × Environment)
  | 0, _, _, _ => none
  | fuel + 1, environment, location, elements =>
    match elements with
    | [] =>
      some (locatedError "Cannot evaluate empty list" location none,
        environment)
    | first :: args =>
      match first with
      | .sym _ name =>
        if BUILTIN_SYMBOLS.contains name then
          evaluate_builtin fuel environment name args
        else
          some (locatedError "Cannot evaluate list [object Object]"
            location none, environment)
      | _ =>
        some (locatedError "Cannot evaluate list [object Object]"
          location none, environment)

/-- `evaluate_builtin`: dispatch on the built-in name.  The cases through
`fill` mirror the interpreter source; `noStroke`/`noFill`/`rect`/`line` are
modelled from the spec's built-in table (the included interpreter snapshot
predates them and its caller invokes the newer interpreter).  Unknown names
hit the `Unimplemented built-in function` default. -/
def evaluate_builtin : Nat → Environment → String → List Expr →
    Option (EvalResult × Environment)
  | 0, _, _, _ => none
  | fuel + 1, environment, builtinName, args =>
    match builtinName with
    | "+" => evaluate_add fuel environment args
    | "-" => evaluate_subtract fuel environment args
    | "*" => evaluate_multiply fuel environment args
    | "/" => evaluate_divide fuel environment args
    | ">" => evaluate_greater_than fuel environment args
    | ">=" => evaluate_greater_equal fuel environment args
    | "<" => evaluate_less_than fuel environment args
    | "<=" => evaluate_less_equal fuel environment args
    | "=" => evaluate_equal fuel environment args
    | "if" => evaluate_if fuel environment args
    | "let" => evaluate_let fuel environment args
    | "set" => evaluate_set fuel environment args
    | "while" => evaluate_while fuel environment args
    | "rgb" => evaluate_rgb fuel environment args
    | "stroke" => evaluate_stroke fuel environment args
    | "fill" => evaluate_fill fuel environment args
    | "noStroke" => some (evaluate_noStroke environment args)
    | "noFill" => some (evaluate_noFill environment args)
    | "rect" => evaluate_rect fuel environment args
    | "line" => evaluate_line fuel environment args
    | _ =>
      some (locatedError
        ("Unimplemented built-in function " ++ builtinName) none none,
        environment)

/-- The shared shape of the `+`/`-`/`*` accumulation loops: evaluate each
argument in order, demand a number (error message `msg ++ type`), and fold
with `op` into the accumulator. -/
def fold_arith : Nat → Environment → (ℚ → ℚ → ℚ) → String → ℚ →
    List Expr → Option (EvalResult × Environment)
  | 0, _, _, _, _, _ => none
  | fuel + 1, environment, op, msg, acc, args =>
    match args with
    | [] => some (.ok (some (.num none acc)), environment)
    | arg :: rest =>
      match evaluate fuel environment arg with
      | none => none
      | some (.err e, env2) => some (.err e, env2)
      | some (.ok v, env2) =>
        match v with
        | some (.num _ x) => fold_arith fuel env2 op msg (op acc x) rest
        | _ =>
          some (locatedError (msg ++ typeOrUndefined v) arg.location none,
            env2)

/-- `evaluate_add`: zero arguments give `0`; otherwise sum the evaluated
numeric arguments left to right. -/
def evaluate_add : Nat → Environment → List Expr →
    Option (EvalResult × Environment)
  | 0, _, _ => none
  | fuel + 1, environment, args =>
    match args with
    | [] => some (.ok (some (.num none 0)), environment)
    | _ =>
      fold_arith fuel environment (· + ·)
        "Addition requires numbers, got " 0 args

/-- `evaluate_subtract`: zero arguments give `0`; one argument negates;
two or more left-fold subtraction starting from the first value. -/
def evaluate_subtract : Nat → Environment → List Expr →
    Option (EvalResult × Environment)
  | 0, _, _ => none
  | fuel + 1, environment, args =>
    match args with
    | [] => some (.ok (some (.num none 0)), environment)
    | [a] =>
      match evaluate fuel environment a with
      | none => none
      | some (.err e, env2) => some (.err e, env2)
      | some (.ok v, env2) =>
        match v with
        | some (.num _ x) => some (.ok (some (.num none (-x))), env2)
        | _ =>
          some (locatedError
            ("Subtraction requires numbers, got " ++ typeOrUndefined v)
            a.location none, env2)
    | a :: rest =>
      match evaluate fuel environment a with
      | none => none
      | some (.err e, env2) => some (.err e, env2)
      | some (.ok v, env2) =>
        match v with
        | some (.num _ x) =>
          fold_arith fuel env2 (· - ·)
            "Subtraction requires numbers, got " x rest
        | _ =>
          some (locatedError
            ("Subtraction requires numbers, got " ++ typeOrUndefined v)
            a.location none, env2)

/-- `evaluate_multiply`: zero arguments give `1`; otherwise multiply the
evaluated numeric arguments left to right. -/
def evaluate_multiply : Nat → Environment → List Expr →
    Option (EvalResult × Environment)
  | 0, _, _ => none
  | fuel + 1, environment, args =>
    match args with
    | [] => some (.ok (some (.num none 1)), environment)
    | _ =>
      fold_arith fuel environment (· * ·)
        "Multiplication requires numbers, got " 1 args

/-- The divisor loop of `evaluate_divide`: each later argument must be a
nonzero number (`Division by zero` is fatal at the offending argument) and
divides the accumulator. -/
def div_loop : Nat → Environment → ℚ → List Expr →
    Option (EvalResult × Environment)
  | 0, _, _, _ => none
  | fuel + 1, environment, acc, args =>
    match args with
    | [] => some (.ok (some (.num none acc)), environment)
    | arg :: rest =>
      match evaluate fuel environment arg with
      | none => none
      | some (.err e, env2) => some (.err e, env2)
      | some (.ok v, env2) =>
        match v with
        | some (.num _ x) =>
          if x = 0 then
            some (locatedError "Division by zero" arg.location none, env2)
          else div_loop fuel env2 (acc / x) rest
        | _ =>
          some (locatedError
            ("Division requires numbers, got " ++ typeOrUndefined v)
            arg.location none, env2)

/-- `evaluate_divide`: no arguments is an error; one argument gives the
reciprocal (fatal on zero); two or more left-fold division starting from
the first value, `div_loop` checking each divisor. -/
def evaluate_divide : Nat → Environment → List Expr →
    Option (EvalResult × Environment)
  | 0, _, _ => none
  | fuel + 1, environment, args =>
    match args with
    | [] =>
      some (locatedError "Division requires at least one argument"
        none none, environment)
    | [a] =>
      match evaluate fuel environment a with
      | none => none
      | some (.err e, env2) => some (.err e, env2)
      | some (.ok v, env2) =>
        match v with
        | some (.num _ x) =>
          if x = 0 then
            some (locatedError "Division by zero" a.location none, env2)
          else some (.ok (some (.num none (1 / x))), env2)
        | _ =>
          some (locatedError
            ("Division requires numbers, got " ++ typeOrUndefined v)
            a.location none, env2)
    | a :: rest =>
      match evaluate fuel environment a with
      | none => none
      | some (.err e, env2) => some (.err e, env2)
      | some (.ok v, env2) =>
        match v with
        | some (.num _ x) => div_loop fuel env2 x rest
        | _ =>
          some (locatedError
            ("Division requires numbers, got " ++ typeOrUndefined v)
            a.location none, env2)

/-- The pairwise loop shared by the four comparison builtins: evaluate the
pair `(a, b)`, demand numbers, apply the relation; a failing pair returns
boolean `false`, a passing pair continues with `(b, c)` — so interior
arguments are evaluated again as the left element of the next pair. -/
def compare_loop : Nat → Environment → (ℚ → ℚ → Bool) → Expr → Expr →
    List Expr → Option (EvalResult × Environment)
  | 0, _, _, _, _, _ => none
  | fuel + 1, environment, rel, a, b, rest =>
    match evaluate fuel environment a with
    | none => none
    | some (.err e, env2) => some (.err e, env2)
    | some (.ok left, env2) =>
      match evaluate fuel env2 b with
      | none => none
      | some (.err e, env3) => some (.err e, env3)
      | some (.ok right, env3) =>
        match left, right with
        | some (.num _ l), some (.num _ r) =>
          if rel l r then
            match rest with
            | [] => some (.ok (some (.bool none true)), env3)
            | c :: rest2 => compare_loop fuel env3 rel b c rest2
          else some (.ok (some (.bool none false)), env3)
        | _, _ =>
          some (locatedError
            ("Comparison requires numbers, got " ++ typeOrUndefined left
              ++ " and " ++ typeOrUndefined right)
            (jsLocOr a.location b.location) none, env3)

/-- `evaluate_greater_than` (`>`): at least two arguments, all consecutive
evaluated pairs must satisfy `left > right`. -/
def evaluate_greater_than : Nat → Environment → List Expr →
    Option (EvalResult × Environment)
  | 0, _, _ => none
  | fuel + 1, environment, args =>
    match args with
    | a :: b :: rest =>
      compare_loop fuel environment (fun l r => decide (l > r)) a b rest
    | _ =>
      some (locatedError "Greater than (>) requires at least 2 arguments"
        none none, environment)

/-- `evaluate_greater_equal` (`>=`). -/
def evaluate_greater_equal : Nat → Environment → List Expr →
    Option (EvalResult × Environment)
  | 0, _, _ => none
  | fuel + 1, environment, args =>
    match args with
    | a :: b :: rest =>
      compare_loop fuel environment (fun l r => decide (l ≥ r)) a b rest
    | _ =>
      some (locatedError
        "Greater than or equal (>=) requires at least 2 arguments"
        none none, environment)

/-- `evaluate_less_than` (`<`). -/
def evaluate_less_than : Nat → Environment → List Expr →
    Option (EvalResult × Environment)
  | 0, _, _ => none
  | fuel + 1, environment, args =>
    match args with
    | a :: b :: rest =>
      compare_loop fuel environment (fun l r => decide (l < r)) a b rest
    | _ =>
      some (locatedError "Less than (<) requires at least 2 arguments"
        none none, environment)

/-- `evaluate_less_equal` (`<=`). -/
def evaluate_less_equal : Nat → Environment → List Expr →
    Option (EvalResult × Environment)
  | 0, _, _ => none
  | fuel + 1, environment, args =>
    match args with
    | a :: b :: rest =>
      compare_loop fuel environment (fun l r => decide (l ≤ r)) a b rest
    | _ =>
      some (locatedError
        "Less than or equal (<=) requires at least 2 arguments"
        none none, environment)

/-- The loop of `evaluate_equal`: each later argument is evaluated and
compared against the first value: differing tags give `false`, matching
primitive tags compare values, symbol/list tags are unsupported. -/
def equal_loop : Nat → Environment → Expr → Option Nat → Nat →
    List Expr → Option (EvalResult × Environment)
  | 0, _, _, _, _, _ => none
  | fuel + 1, environment, first, firstLoc, i, args =>
    match args with
    | [] => some (.ok (some (.bool none true)), environment)
    | arg :: rest =>
      match evaluate fuel environment arg with
      | none => none
      | some (.err e, env2) => some (.err e, env2)
      | some (.ok v, env2) =>
        match v with
        | none =>
          some (locatedError
            ("Cannot evaluate argument " ++ toString i ++ " for equality")
            arg.location none, env2)
        | some x =>
          match first, x with
          | .num _ a, .num _ b =>
            if a = b then equal_loop fuel env2 first firstLoc (i + 1) rest
            else some (.ok (some (.bool none false)), env2)
          | .str _ a, .str _ b =>
            if a = b then equal_loop fuel env2 first firstLoc (i + 1) rest
            else some (.ok (some (.bool none false)), env2)
          | .bool _ a, .bool _ b =>
            if a = b then equal_loop fuel env2 first firstLoc (i + 1) rest
            else some (.ok (some (.bool none false)), env2)
          | .sym _ _, .sym _ _ =>
            some (locatedError
              ("Equality comparison not supported for type "
                ++ first.typeName) firstLoc none, env2)
          | .list _ _, .list _ _ =>
            some (locatedError
              ("Equality comparison not supported for type "
                ++ first.typeName) firstLoc none, env2)
          | _, _ => some (.ok (some (.bool none false)), env2)

/-- `evaluate_equal` (`=`): at least two arguments; the first evaluated
value is compared against each later one. -/
def evaluate_equal : Nat → Environment → List Expr →
    Option (EvalResult × Environment)
  | 0, _, _ => none
  | fuel + 1, environment, args =>
    match args with
    | [] =>
      some (locatedError "Equality (=) requires at least 2 arguments"
        none none, environment)
    | [_] =>
      some (locatedError "Equality (=) requires at least 2 arguments"
        none none, environment)
    | a :: rest =>
      match evaluate fuel environment a with
      | none => none
      | some (.err e, env2) => some (.err e, env2)
      | some (.ok v, env2) =>
        match v with
        | none =>
          some (locatedError "Cannot evaluate first argument for equality"
            a.location none, env2)
        | some first => equal_loop fuel env2 first a.location 1 rest

/-- `evaluate_if`: exactly three arguments; evaluate the condition, apply
truthiness, then evaluate and return exactly one branch. -/
def evaluate_if : Nat → Environment → List Expr →
    Option (EvalResult × Environment)
  | 0, _, _ => none
  | fuel + 1, environment, args =>
    match args with
    | [conditionExpr, trueExpr, falseExpr] =>
      match evaluate fuel environment conditionExpr with
      | none => none
      | some (.err e, env2) => some (.err e, env2)
      | some (.ok v, env2) =>
        match v with
        | none =>
          some (locatedError "Cannot evaluate condition for if statement"
            conditionExpr.location none, env2)
        | some condition =>
          match truthinessOf condition with
          | none =>
            some (locatedError
              ("Unsupported condition type for if: " ++ condition.typeName)
              conditionExpr.location none, env2)
          | some true =>
            match evaluate fuel env2 trueExpr with
            | none => none
            | some (.err e, env3) => some (.err e, env3)
            | some (.ok none, env3) =>
              some (locatedError "if true branch produced no result"
                trueExpr.location none, env3)
            | some (.ok (some value), env3) =>
              some (.ok (some value), env3)
          | some false =>
            match evaluate fuel env2 falseExpr with
            | none => none
            | some (.err e, env3) => some (.err e, env3)
            | some (.ok none, env3) =>
              some (locatedError "if false branch produced no result"
                falseExpr.location none, env3)
            | some (.ok (some value), env3) =>
              some (.ok (some value), env3)
    | _ =>
      some (locatedError
        "if requires exactly 3 arguments: (if condition true_expr false_expr)"
        none none, environment)

/-- The binding loop of `evaluate_let`: each binding must be
`(symbol expr)`; the expression is evaluated in the child scope and the
symbol bound there, so later bindings see earlier ones. -/
def let_bindings : Nat → Environment → List Expr →
    Option (Result Unit LocatedError × Environment)
  | 0, _, _ => none
  | fuel + 1, environment, bs =>
    match bs with
    | [] => some (.ok (), environment)
    | binding :: rest =>
      match binding with
      | .list _ [.sym _ name, expr] =>
        match evaluate fuel environment expr with
        | none => none
        | some (.err e, env2) => some (.err e, env2)
        | some (.ok none, env2) =>
          some (locatedError "Expression did not evaluate to an expression"
            expr.location none, env2)
        | some (.ok (some value), env2) =>
          let_bindings fuel
            { env2 with symbolTable := env2.symbolTable.set name value }
            rest
      | _ =>
        some (locatedError "Bindings must be of form (symbol expr)"
          binding.location none, environment)

/-- The body of `evaluate_let`: the source maps `evaluate` over every body
expression and returns `results.at(-1)` — all body expressions are
evaluated, and only the last result (`Ok` or `Err`) is returned. -/
def let_body : Nat → Environment → Option Nat → List Expr →
    Option (EvalResult × Environment)
  | 0, _, _, _ => none
  | fuel + 1, environment, loc0, exprs =>
    match exprs with
    | [] => some (locatedError "Nothing to evaluate" loc0 none, environment)
    | [e] => evaluate fuel environment e
    | e :: rest =>
      match evaluate fuel environment e with
      | none => none
      | some (_, env2) => let_body fuel env2 loc0 rest

/-- `evaluate_let`: first argument is the bindings list; a child scope is
entered, bindings are evaluated and bound sequentially, the body runs in
the child scope, and the child table is dropped when the call returns. -/
def evaluate_let : Nat → Environment → List Expr →
    Option (EvalResult × Environment)
  | 0, _, _ => none
  | fuel + 1, environment, args =>
    match args with
    | [] =>
      some (locatedError "Not enough arguments to `let` statement"
        none none, environment)
    | [a] =>
      some (locatedError "Not enough arguments to `let` statement"
        a.location none, environment)
    | bindings :: expressions =>
      match bindings with
      | .list bloc bindingList =>
        match let_bindings fuel
            { environment with
                symbolTable := environment.symbolTable.enterScope }
            bindingList with
        | none => none
        | some (.err e, scoped2) =>
          some (.err e,
            { scoped2 with symbolTable := scoped2.symbolTable.tail })
        | some (.ok _, scoped2) =>
          match let_body fuel scoped2 bloc expressions with
          | none => none
          | some (r, scoped3) =>
            some (r, { scoped3 with symbolTable := scoped3.symbolTable.tail })
      | _ =>
        some (locatedError "First argument to `let` must be a list"
          bindings.location none, environment)

/-- `evaluate_set`: the first argument (taken verbatim when it is already a
symbol, otherwise evaluated) must be a symbol bound somewhere in the scope
chain; the second argument's value is then written into the innermost
scope's table and returned.  An error from the second argument is replaced
by the generic `The second argument to set must be an expression`. -/
def evaluate_set : Nat → Environment → List Expr →
    Option (EvalResult × Environment)
  | 0, _, _ => none
  | fuel + 1, environment, args =>
    match args with
    | [first, second] =>
      match (match first with
             | .sym l n => some (Result.ok (some (Expr.sym l n)), environment)
             | _ => evaluate fuel environment first) with
      | none => none
      | some (symRes, env2) =>
        match symRes with
        | .ok (some (.sym _ name)) =>
          match env2.symbolTable.lookup name with
          | none =>
            some (locatedError
              "The first argument to set must be a symbol in scope"
              first.location none, env2)
          | some _ =>
            match evaluate fuel env2 second with
            | none => none
            | some (.ok (some value), env3) =>
              some (.ok (some value),
                { env3 with symbolTable := env3.symbolTable.set name value })
            | some (_, env3) =>
              some (locatedError
                "The second argument to set must be an expression"
                second.location none, env3)
        | _ =>
          some (locatedError
            "The first argument to set must be a symbol in scope"
            first.location none, env2)
    | [] =>
      some (locatedError "set requires 2 arguments" none none, environment)
    | a :: _ =>
      some (locatedError "set requires 2 arguments" a.location none,
        environment)

/-- The body pass of one `while` iteration: evaluate every body expression
in order, discarding results, stopping at the first error. -/
def while_body : Nat → Environment → List Expr →
    Option (Result Unit LocatedError × Environment)
  | 0, _, _ => none
  | fuel + 1, environment, exprs =>
    match exprs with
    | [] => some (.ok (), environment)
    | e :: rest =>
      match evaluate fuel environment e with
      | none => none
      | some (.err err, env2) => some (.err err, env2)
      | some (.ok _, env2) => while_body fuel env2 rest

/-- The `while (true)` loop of `evaluate_while` with its iteration counter:
the guard `counter > 1000000` is checked at the top of every pass, then the
condition is evaluated; falsy stops the loop returning boolean `false`
(carrying the condition's offset), truthy runs the body and repeats. -/
def while_loop : Nat → Environment → Expr → List Expr → Nat →
    Option (EvalResult × Environment)
  | 0, _, _, _, _ => none
  | fuel + 1, environment, conditionExpr, bodyExprs, counter =>
    if counter > 1000000 then
      some (locatedError
        "Infinite loop protection, passed 1 million iterations"
        conditionExpr.location none, environment)
    else
      match evaluate fuel environment conditionExpr with
      | none => none
      | some (.err e, env2) => some (.err e, env2)
      | some (.ok none, env2) =>
        some (locatedError "Cannot evaluate condition for while statement"
          conditionExpr.location none, env2)
      | some (.ok (some condition), env2) =>
        match truthinessOf condition with
        | none =>
          some (locatedError
            ("Unsupported condition type for while: " ++ condition.typeName)
            conditionExpr.location none, env2)
        | some false =>
          some (.ok (some (.bool conditionExpr.location false)), env2)
        | some true =>
          match while_body fuel env2 bodyExprs with
          | none => none
          | some (.err e, env3) => some (.err e, env3)
          | some (.ok _, env3) =>
            while_loop fuel env3 conditionExpr bodyExprs (counter + 1)

/-- `evaluate_while`: at least one argument (the condition); the remaining
arguments form the body. -/
def evaluate_while : Nat → Environment → List Expr →
    Option (EvalResult × Environment)
  | 0, _, _ => none
  | fuel + 1, environment, args =>
    match args with
    | [] =>
      some (locatedError
        "while requires at least 1 argument: (while condition expr1 expr2 ...)"
        none none, environment)
    | conditionExpr :: bodyExprs =>
      while_loop fuel environment conditionExpr bodyExprs 0

/-- `evaluate_rgb`: exactly three numeric arguments, each clamped to
`[0, 255]` after flooring, producing the string `rgb(R,G,B)` carrying the
red argument's offset. -/
def evaluate_rgb : Nat → Environment → List Expr →
    Option (EvalResult × Environment)
  | 0, _, _ => none
  | fuel + 1, environment, args =>
    match args with
    | [rExpr, gExpr, bExpr] =>
      match evaluate fuel environment rExpr with
      | none => none
      | some (.err e, env2) => some (.err e, env2)
      | some (.ok rv, env2) =>
        match rv with
        | some (.num _ r) =>
          match evaluate fuel env2 gExpr with
          | none => none
          | some (.err e, env3) => some (.err e, env3)
          | some (.ok gv, env3) =>
            match gv with
            | some (.num _ g) =>
              match evaluate fuel env3 bExpr with
              | none => none
              | some (.err e, env4) => some (.err e, env4)
              | some (.ok bv, env4) =>
                match bv with
                | some (.num _ b) =>
                  some (.ok (some (.str rExpr.location
                    ("rgb(" ++ toString (max 0 (min 255 (Rat.floor r)))
                      ++ "," ++ toString (max 0 (min 255 (Rat.floor g)))
                      ++ "," ++ toString (max 0 (min 255 (Rat.floor b)))
                      ++ ")"))), env4)
                | _ =>
                  some (locatedError
                    ("rgb blue component must be a number, got "
                      ++ typeOrUndefined bv) bExpr.location none, env4)
            | _ =>
              some (locatedError
                ("rgb green component must be a number, got "
                  ++ typeOrUndefined gv) gExpr.location none, env3)
        | _ =>
          some (locatedError
            ("rgb red component must be a number, got "
              ++ typeOrUndefined rv) rExpr.location none, env2)
    | _ =>
      some (locatedError "rgb requires exactly 3 arguments: (rgb r g b)"
        none none, environment)

/-- `evaluate_stroke`: one string argument; sets the surface's
`strokeStyle`; returns no value. -/
def evaluate_stroke : Nat → Environment → List Expr →
    Option (EvalResult × Environment)
  | 0, _, _ => none
  | fuel + 1, environment, args =>
    match args with
    | [colorExpr] =>
      match evaluate fuel environment colorExpr with
      | none => none
      | some (.err e, env2) => some (.err e, env2)
      | some (.ok v, env2) =>
        match v with
        | some (.str _ color) =>
          some (.ok none,
            { env2 with canvas := { env2.canvas with strokeStyle := color } })
        | _ =>
          some (locatedError
            ("stroke requires a string color, got " ++ typeOrUndefined v)
            colorExpr.location none, env2)
    | _ =>
      some (locatedError "stroke requires exactly 1 argument: (stroke color)"
        none none, environment)

/-- `evaluate_fill`: one string argument; sets the surface's `fillStyle`;
returns no value. -/
def evaluate_fill : Nat → Environment → List Expr →
    Option (EvalResult × Environment)
  | 0, _, _ => none
  | fuel + 1, environment, args =>
    match args with
    | [colorExpr] =>
      match evaluate fuel environment colorExpr with
      | none => none
      | some (.err e, env2) => some (.err e, env2)
      | some (.ok v, env2) =>
        match v with
        | some (.str _ color) =>
          some (.ok none,
            { env2 with canvas := { env2.canvas with fillStyle := color } })
        | _ =>
          some (locatedError
            ("fill requires a string color, got " ++ typeOrUndefined v)
            colorExpr.location none, env2)
    | _ =>
      some (locatedError "fill requires exactly 1 argument: (fill color)"
        none none, environment)

/-- Modelled from the spec: `rect` (arity 4) evaluates x, y, w, h as
numbers and mutates the surface — begin path, add the rectangle, fill if
the current fill color is not `"none"`, stroke if the current stroke color
is not `"none"`; non-number arguments are errors.  The builtin's source
postdates the included interpreter snapshot. -/
def evaluate_rect : Nat → Environment → List Expr →
    Option (EvalResult × Environment)
  | 0, _, _ => none
  | fuel + 1, environment, args =>
    match args with
    | [xExpr, yExpr, wExpr, hExpr] =>
      match evaluate fuel environment xExpr with
      | none => none
      | some (.err e, env2) => some (.err e, env2)
      | some (.ok xv, env2) =>
        match xv with
        | some (.num _ x) =>
          match evaluate fuel env2 yExpr with
          | none => none
          | some (.err e, env3) => some (.err e, env3)
          | some (.ok yv, env3) =>
            match yv with
            | some (.num _ y) =>
              match evaluate fuel env3 wExpr with
              | none => none
              | some (.err e, env4) => some (.err e, env4)
              | some (.ok wv, env4) =>
                match wv with
                | some (.num _ w) =>
                  match evaluate fuel env4 hExpr with
                  | none => none
                  | some (.err e, env5) => some (.err e, env5)
                  | some (.ok hv, env5) =>
                    match hv with
                    | some (.num _ h) =>
                      some (.ok none,
                        { env5 with canvas := rect_draw env5.canvas x y w h })
                    | _ =>
                      some (locatedError
                        ("rect requires numbers, got " ++ typeOrUndefined hv)
                        hExpr.location none, env5)
                | _ =>
                  some (locatedError
                    ("rect requires numbers, got " ++ typeOrUndefined wv)
                    wExpr.location none, env4)
            | _ =>
              some (locatedError
                ("rect requires numbers, got " ++ typeOrUndefined yv)
                yExpr.location none, env3)
        | _ =>
          some (locatedError
            ("rect requires numbers, got " ++ typeOrUndefined xv)
            xExpr.location none, env2)
    | _ =>
      some (locatedError "rect requires exactly 4 arguments"
        none none, environment)

/-- Modelled from the spec: `line` (arity 4) evaluates x1, y1, x2, y2 as
numbers and mutates the surface — begin path, move-to, line-to, stroke only
if the current stroke color is not `"none"` (never fills).  The builtin's
source postdates the included interpreter snapshot. -/
def evaluate_line : Nat → Environment → List Expr →
    Option (EvalResult × Environment)
  | 0, _, _ => none
  | fuel + 1, environment, args =>
    match args with
    | [x1Expr, y1Expr, x2Expr, y2Expr] =>
      match evaluate fuel environment x1Expr with
      | none => none
      | some (.err e, env2) => some (.err e, env2)
      | some (.ok v1, env2) =>
        match v1 with
        | some (.num _ x1) =>
          match evaluate fuel env2 y1Expr with
          | none => none
          | some (.err e, env3) => some (.err e, env3)
          | some (.ok v2, env3) =>
            match v2 with
            | some (.num _ y1) =>
              match evaluate fuel env3 x2Expr with
              | none => none
              | some (.err e, env4) => some (.err e, env4)
              | some (.ok v3, env4) =>
                match v3 with
                | some (.num _ x2) =>
                  match evaluate fuel env4 y2Expr with
                  | none => none
                  | some (.err e, env5) => some (.err e, env5)
                  | some (.ok v4, env5) =>
                    match v4 with
                    | some (.num _ y2) =>
                      some (.ok none,
                        { env5 with canvas := line_draw env5.canvas x1 y1 x2 y2 })
                    | _ =>
                      some (locatedError
                        ("line requires numbers, got " ++ typeOrUndefined v4)
                        y2Expr.location none, env5)
                | _ =>
                  some (locatedError
                    ("line requires numbers, got " ++ typeOrUndefined v3)
                    x2Expr.location none, env4)
            | _ =>
              some (locatedError
                ("line requires numbers, got " ++ typeOrUndefined v2)
                y1Expr.location none, env3)
        | _ =>
          some (locatedError
            ("line requires numbers, got " ++ typeOrUndefined v1)
            x1Expr.location none, env2)
    | _ =>
      some (locatedError "line requires exactly 4 arguments"
        none none, environment)

end

/-- The driver loop of `run`: `program.map((expr) => evaluate(environment,
expr))` — one result per top-level expression, in source order, against the
single shared environment. -/
def run_loop : Nat → Environment → List Expr →
    Option (List EvalResult × Environment)
  | _, environment, [] => some ([], environment)
  | fuel, environment, expr :: rest =>
    match evaluate fuel environment expr with
    | none => none
    | some (r, env2) =>
      match run_loop fuel env2 rest with
      | none => none
      | some (rs, env3) => some (r :: rs, env3)

/-- Modelled from the spec: `run(program, surface, width, height)` seeds one
root `Environment` with numeric bindings for `width` and `height` and maps
`evaluate` over the program.  The included interpreter snapshot only has the
older two-argument `run` without the seeding; its caller App.tsx invokes the
four-argument form, whose source is not included, so the seeding is taken
from the spec's contract. -/
def run (fuel : Nat) (program : List Expr) (canvas : CanvasState)
    (width height : ℚ) : Option (List EvalResult × Environment) :=
  run_loop fuel
    { symbolTable :=
        [[("width", Expr.num none width), ("height", Expr.num none height)]],
      canvas := canvas }
    program

/-! ## Parser (parser.ts, core.ts's `PeekableIterator`) -/

/-- core.ts's `PeekableIterator`: a peekable, position-tracking walk over
the input's character sequence (`Array.from(input)`). -/
structure PeekableIterator : Type where
  items : List Char
  position : Nat

/-- `peek(offset)`: the character `offset` places ahead, or `undefined` past
the end. -/
def PeekableIterator.peekAt (it : PeekableIterator) (offset : Nat) :
    Option Char :=
  it.items.get? (it.position + offset)

/-- `peek()` with the default offset 0. -/
def PeekableIterator.peek (it : PeekableIterator) : Option Char :=
  it.peekAt 0

/-- `next()`: the current character (or `undefined`), advancing the
position only when in bounds. -/
def PeekableIterator.next (it : PeekableIterator) :
    Option Char × PeekableIterator :=
  if it.position < it.items.length then
    (it.items.get? it.position, { it with position := it.position + 1 })
  else (none, it)

/-- `hasNext()`. -/
def PeekableIterator.hasNext (it : PeekableIterator) : Bool :=
  it.position < it.items.length

/-- `pos()`. -/
def PeekableIterator.pos (it : PeekableIterator) : Nat := it.position

/-- The input not yet consumed. -/
def PeekableIterator.remaining (it : PeekableIterator) : List Char :=
  it.items.drop it.position

/-- `c.trim() === ""` for a single character: JavaScript string trim on the
whitespace characters occurring in this language's inputs (space, tab,
newline, carriage return — Lean's `Char.isWhitespace` covers exactly
these). -/
def jsWhitespace (c : Char) : Bool := c.isWhitespace

/-- The number of leading whitespace characters, for `skipWhitespace`'s
`skipWhile` loop. -/
def count_ws : List Char → Nat
  | [] => 0
  | c :: rest => if jsWhitespace c then count_ws rest + 1 else 0

/-- `skipWhitespace(it)`: advance past leading whitespace (the `skipWhile`
predicate is false on `undefined`, so the walk stops at the end). -/
def skip_whitespace (it : PeekableIterator) : PeekableIterator :=
  { it with position := it.position + count_ws it.remaining }

/-- The number of leading characters matching `/[0-9.]/`, for
`parse_number`'s collection loop. -/
def count_number_chars : List Char → Nat
  | [] => 0
  | c :: rest =>
    if c.isDigit || c = '.' then count_number_chars rest + 1 else 0

/-- The number of characters before the closing `"` (`none` when the input
ends first), for `parse_string`'s collection loop. -/
def count_string_chars : List Char → Option Nat
  | [] => none
  | c :: rest =>
    if c = '"' then some 0
    else (count_string_chars rest).map (· + 1)

/-- The number of leading symbol characters (anything but whitespace,
parentheses and quotes), for `parse_symbol`'s collection loop. -/
def count_symbol_chars : List Char → Nat
  | [] => 0
  | c :: rest =>
    if jsWhitespace c || c = '(' || c = ')' || c = '"' then 0
    else count_symbol_chars rest + 1

/-- The value of a digit run. -/
def digits_value (ds : List Char) : Nat :=
  ds.foldl (fun acc c => 10 * acc + (c.toNat - '0'.toNat)) 0

/-- JavaScript `Number(str)` restricted to the strings this parser feeds to
it (single input characters, and tokens of an optional `-` followed by
digits and dots): `some` the numeric value of an optional-sign decimal
literal with at least one digit and at most one dot, `none` (NaN)
otherwise. -/
def jsNumberParse (s : String) : Option ℚ :=
  let core : List Char → Option ℚ := fun cs =>
    let intDigits := cs.takeWhile Char.isDigit
    match cs.dropWhile Char.isDigit with
    | [] =>
      if intDigits.isEmpty then none else some (digits_value intDigits)
    | '.' :: frac =>
      if frac.all Char.isDigit && !(intDigits.isEmpty && frac.isEmpty) then
        some ((digits_value intDigits : ℚ)
          + (digits_value frac : ℚ) / (10 : ℚ) ^ frac.length)
      else none
    | _ => none
  match s.toList with
  | '-' :: rest => (core rest).map Neg.neg
  | '+' :: rest => core rest
  | cs => core cs

/-- `isNumber(str)` from parser.ts:
`!Number.isNaN(Number(str)) && str.trim() !== ""`. -/
def isNumber (str : String) : Bool := (jsNumberParse str).isSome

/-- An ASCII apostrophe, for the `Invalid number format '<token>'`
message. -/
def squote : String := String.mk [Char.ofNat 39]

/-- The token collection of `parse_number`: greedily consume an optional
`-` then every `/[0-9.]/` character, returning the collected token and the
advanced cursor. -/
def number_token (it : PeekableIterator) : String × PeekableIterator :=
  let (pre, it1) :=
    if it.peek = some '-' then (['-'], (it.next).2) else (([] : List Char), it)
  let n := count_number_chars it1.remaining
  (String.mk (pre ++ it1.remaining.take n),
    { it1 with position := it1.position + n })

/-- `parse_number`: record the start offset and collect the token; a token
that fails `isNumber` yields `Invalid number format '<token>'` at the
token's start with length equal to the token's length, else a `Num`
carrying the parsed value. -/
def parse_number (it : PeekableIterator) :
    Result Expr (List LocatedError) × PeekableIterator :=
  let location := it.pos
  let (numberStr, it2) := number_token it
  match jsNumberParse numberStr with
  | some v => (.ok (.num (some location) v), it2)
  | none =>
    (.err [⟨"Invalid number format " ++ squote ++ numberStr ++ squote,
      some location, some numberStr.length⟩], it2)

/-- `parse_string`: consume the opening quote and all following characters
verbatim until a matching quote; running out of input yields `Unterminated
string literal` at the opening quote with length = consumed length + 1. -/
def parse_string (it : PeekableIterator) :
    Result Expr (List LocatedError) × PeekableIterator :=
  let location := it.pos
  let (openQuote, it1) := it.next
  if openQuote ≠ some '"' then
    (.err [⟨"Missing opening \"", some location, some 1⟩], it1)
  else
    match count_string_chars it1.remaining with
    | some k =>
      (.ok (.str (some location) (String.mk (it1.remaining.take k))),
        { it1 with position := it1.position + k + 1 })
    | none =>
      (.err [⟨"Unterminated string literal", some location,
        some ((String.mk it1.remaining).length + 1)⟩],
        { it1 with position := it1.items.length })

/-- `parse_symbol`: collect every character until whitespace, a parenthesis
or a quote; an empty run is the `Empty symbol` error. -/
def parse_symbol (it : PeekableIterator) :
    Result Expr (List LocatedError) × PeekableIterator :=
  let location := it.pos
  let k := count_symbol_chars it.remaining
  if k = 0 then (.err [⟨"Empty symbol", some location, some 1⟩], it)
  else
    (.ok (.sym (some location) (String.mk (it.remaining.take k))),
      { it with position := it.position + k })

mutual

/-- `parse_inner`: one token of lookahead decides the production — `(` a
list, `"` a string, a digit (or `-` followed by a digit) a number, symbol
as the fallback. -/
def parse_inner : Nat → PeekableIterator →
    Option ((Result Expr (List LocatedError)) × PeekableIterator)
  | 0, _ => none
  | fuel + 1, it =>
    let location := it.pos
    if ¬it.hasNext then
      some (.err [⟨"Unexpected end of input", some location, none⟩], it)
    else
      let it1 := skip_whitespace it
      match it1.peek with
      | some '(' => parse_list fuel it1
      | some '"' => some (parse_string it1)
      | some c =>
        if isNumber (String.mk [c])
            || (c = '-' && isNumber (match it1.peekAt 1 with
                                     | some d => String.mk [d]
                                     | none => "")) then
          some (parse_number it1)
        else some (parse_symbol it1)
      | none => some (parse_symbol it1)

/-- The element loop of `parse_list`: skip whitespace, close on `)`, error
at end of input (`Unexpected end of input - missing closing parenthesis` at
the list's own opening offset), else parse one inner expression; the first
error batch stops the loop and is returned. -/
def list_loop : Nat → PeekableIterator → Nat → List Expr →
    Option ((Result Expr (List LocatedError)) × PeekableIterator)
  | 0, _, _, _ => none
  | fuel + 1, it, location, acc =>
    let it1 := skip_whitespace it
    if it1.peek = some ')' then
      some (.ok (.list (some location) acc), (it1.next).2)
    else if ¬it1.hasNext then
      some (.err [⟨"Unexpected end of input - missing closing parenthesis",
        some location, none⟩], it1)
    else
      match parse_inner fuel it1 with
      | none => none
      | some (.err errs, it2) => some (.err errs, it2)
      | some (.ok e, it2) => list_loop fuel it2 location (acc ++ [e])

/-- `parse_list`: record the opening offset, consume `(`, then loop over
the inner expressions. -/
def parse_list : Nat → PeekableIterator →
    Option ((Result Expr (List LocatedError)) × PeekableIterator)
  | 0, _ => none
  | fuel + 1, it =>
    let location := it.pos
    let (next, it1) := it.next
    if next ≠ some '(' then
      some (.err [⟨"Missing opening (", some it1.pos, some 1⟩], it1)
    else list_loop fuel it1 location []

end

/-- The driver loop of `parse`: skip whitespace, parse one top-level
expression, collect its errors (advancing one character on failure to
guarantee progress) and continue scanning the rest of the input. -/
def parse_loop : Nat → PeekableIterator → List LocatedError → List Expr →
    Option (Result (List Expr) (List LocatedError))
  | 0, _, _, _ => none
  | fuel + 1, it, errors, program =>
    if ¬it.hasNext then
      some (match errors with
            | [] => .ok program
            | _ => .err errors)
    else
      let it1 := skip_whitespace it
      if ¬it1.hasNext then
        some (match errors with
              | [] => .ok program
              | _ => .err errors)
      else
        match parse_inner fuel it1 with
        | none => none
        | some (.ok e, it2) => parse_loop fuel it2 errors (program ++ [e])
        | some (.err errs, it2) =>
          parse_loop fuel ((it2.next).2) (errors ++ errs) program

/-- `parse(source)`: `Err` with all collected errors if any top-level
expression failed, else `Ok(Program)`. -/
def parse (fuel : Nat) (input : String) :
    Option (Result (List Expr) (List LocatedError)) :=
  parse_loop fuel ⟨input.toList, 0⟩ [] []


/-! ## Concrete programs and environments used in the scenario theorems -/

/-- An environment with one empty root scope and a fresh mock surface. -/
def env0 : Environment := { symbolTable := [[]], canvas := CanvasState.initial }

/-- An environment whose root scope binds `i` to a number, over an arbitrary
surface. -/
def envIc (q : ℚ) (cv : CanvasState) : Environment :=
  { symbolTable := [[("i", Expr.num none q)]], canvas := cv }

/-- An environment whose root scope binds `x` to a number. -/
def envX (q : ℚ) : Environment :=
  { symbolTable := [[("x", Expr.num none q)]], canvas := CanvasState.initial }

/-- The abstract syntax of `(set i (+ i 1))`. -/
def setIncrExpr : Expr :=
  Expr.list none [Expr.sym none "set", Expr.sym none "i",
    Expr.list none [Expr.sym none "+", Expr.sym none "i", Expr.num none 1]]

/-- The abstract syntax of `(while true (set i (+ i 1)))`. -/
def whileTrueExpr : Expr :=
  Expr.list none [Expr.sym none "while", Expr.sym none "true", setIncrExpr]

/-- The abstract syntax of `(while (ltSym i 5) (set i (+ i 1)))` with `ltSym`
the less-than operator. -/
def whileCountExpr : Expr :=
  Expr.list none [Expr.sym none "while",
    Expr.list none [Expr.sym none "<", Expr.sym none "i", Expr.num none 5],
    setIncrExpr]

/-- The abstract syntax of the chained comparison with an effectful middle
argument: the less-than of 0, `(set i (+ i 1))` and 9. -/
def chainedCmpExpr : Expr :=
  Expr.list none [Expr.sym none "<", Expr.num none 0, setIncrExpr, Expr.num none 9]

/-- The abstract syntax of `(let () (div 1 0) 42)` — an empty bindings list,
a division by zero, then the literal 42. -/
def letDivErrExpr : Expr :=
  Expr.list none [Expr.sym none "let", Expr.list none [],
    Expr.list none [Expr.sym none "/", Expr.num none 1, Expr.num none 0],
    Expr.num none 42]

/-- The abstract syntax of `(if true 42 undefined_symbol)`. -/
def ifTrue42Expr : Expr :=
  Expr.list none [Expr.sym none "if", Expr.sym none "true",
    Expr.num none 42, Expr.sym none "undefined_symbol"]

/-- The abstract syntax of `(let ((x 2)) x)`. -/
def letShadowExpr : Expr :=
  Expr.list none [Expr.sym none "let",
    Expr.list none [Expr.list none [Expr.sym none "x", Expr.num none 2]],
    Expr.sym none "x"]

/-- The abstract syntax of `(let ((y 0)) (set x 5))`. -/
def letSetOuterExpr : Expr :=
  Expr.list none [Expr.sym none "let",
    Expr.list none [Expr.list none [Expr.sym none "y", Expr.num none 0]],
    Expr.list none [Expr.sym none "set", Expr.sym none "x", Expr.num none 5]]

/-- The abstract syntax tree the parser produces for
`(rect 0 0 width height)`, offsets included. -/
def rectWHAst : Expr :=
  Expr.list (some 0) [Expr.sym (some 1) "rect", Expr.num (some 6) 0,
    Expr.num (some 8) 0, Expr.sym (some 10) "width", Expr.sym (some 16) "height"]

end ArtLang

namespace ArtLang

/-- `SymbolTable.set` writes only into the head frame: the parent chain is
untouched. -/
theorem SymbolTable.tail_set (st : SymbolTable) (n : String) (v : Expr) :
    (st.set n v).tail = st.tail := by
  cases st <;> rfl

/-- The frame-discipline invariant of one fuel level: every evaluator
function returns an environment whose scope-chain parent frames (the tail
of the frame list) are the ones it was given — the interpreter only ever
writes through the innermost table handle — and `evaluate_let` returns the
whole chain unchanged (its child frame is dropped on every path). -/
structure TailInv (n : Nat) : Prop where
  ev : ∀ env e out, evaluate n env e = some out →
    out.2.symbolTable.tail = env.symbolTable.tail
  evList : ∀ env loc els out, evaluate_list n env loc els = some out →
    out.2.symbolTable.tail = env.symbolTable.tail
  evBuiltin : ∀ env name args out, evaluate_builtin n env name args = some out →
    out.2.symbolTable.tail = env.symbolTable.tail
  foldA : ∀ env op msg acc args out, fold_arith n env op msg acc args = some out →
    out.2.symbolTable.tail = env.symbolTable.tail
  evAdd : ∀ env args out, evaluate_add n env args = some out →
    out.2.symbolTable.tail = env.symbolTable.tail
  evSub : ∀ env args out, evaluate_subtract n env args = some out →
    out.2.symbolTable.tail = env.symbolTable.tail
  evMul : ∀ env args out, evaluate_multiply n env args = some out →
    out.2.symbolTable.tail = env.symbolTable.tail
  divL : ∀ env acc args out, div_loop n env acc args = some out →
    out.2.symbolTable.tail = env.symbolTable.tail
  evDiv : ∀ env args out, evaluate_divide n env args = some out →
    out.2.symbolTable.tail = env.symbolTable.tail
  cmpL : ∀ env rel a b rest out, compare_loop n env rel a b rest = some out →
    out.2.symbolTable.tail = env.symbolTable.tail
  evGt : ∀ env args out, evaluate_greater_than n env args = some out →
    out.2.symbolTable.tail = env.symbolTable.tail
  evGe : ∀ env args out, evaluate_greater_equal n env args = some out →
    out.2.symbolTable.tail = env.symbolTable.tail
  evLt : ∀ env args out, evaluate_less_than n env args = some out →
    out.2.symbolTable.tail = env.symbolTable.tail
  evLe : ∀ env args out, evaluate_less_equal n env args = some out →
    out.2.symbolTable.tail = env.symbolTable.tail
  eqL : ∀ env first firstLoc i args out, equal_loop n env first firstLoc i args = some out →
    out.2.symbolTable.tail = env.symbolTable.tail
  evEq : ∀ env args out, evaluate_equal n env args = some out →
    out.2.symbolTable.tail = env.symbolTable.tail
  evIf : ∀ env args out, evaluate_if n env args = some out →
    out.2.symbolTable.tail = env.symbolTable.tail
  letB : ∀ env bs out, let_bindings n env bs = some out →
    out.2.symbolTable.tail = env.symbolTable.tail
  letBody : ∀ env loc0 exprs out, let_body n env loc0 exprs = some out →
    out.2.symbolTable.tail = env.symbolTable.tail
  evLet : ∀ env args out, evaluate_let n env args = some out →
    out.2.symbolTable = env.symbolTable
  evSet : ∀ env args out, evaluate_set n env args = some out →
    out.2.symbolTable.tail = env.symbolTable.tail
  whileB : ∀ env exprs out, while_body n env exprs = some out →
    out.2.symbolTable.tail = env.symbolTable.tail
  whileL : ∀ env c body k out, while_loop n env c body k = some out →
    out.2.symbolTable.tail = env.symbolTable.tail
  evWhile : ∀ env args out, evaluate_while n env args = some out →
    out.2.symbolTable.tail = env.symbolTable.tail
  evRgb : ∀ env args out, evaluate_rgb n env args = some out →
    out.2.symbolTable.tail = env.symbolTable.tail
  evStroke : ∀ env args out, evaluate_stroke n env args = some out →
    out.2.symbolTable.tail = env.symbolTable.tail
  evFill : ∀ env args out, evaluate_fill n env args = some out →
    out.2.symbolTable.tail = env.symbolTable.tail
  evRect : ∀ env args out, evaluate_rect n env args = some out →
    out.2.symbolTable.tail = env.symbolTable.tail
  evLine : ∀ env args out, evaluate_line n env args = some out →
    out.2.symbolTable.tail = env.symbolTable.tail

theorem tailInv_zero : TailInv 0 := by
  constructor <;> (intro _ _ _; intros; simp_all [evaluate, evaluate_list,
    evaluate_builtin, fold_arith, evaluate_add, evaluate_subtract,
    evaluate_multiply, div_loop, evaluate_divide, compare_loop,
    evaluate_greater_than, evaluate_greater_equal, evaluate_less_than,
    evaluate_less_equal, equal_loop, evaluate_equal, evaluate_if,
    let_bindings, let_body, evaluate_let, evaluate_set, while_body,
    while_loop, evaluate_while, evaluate_rgb, evaluate_stroke,
    evaluate_fill, evaluate_rect, evaluate_line])

theorem tailInv_succ (n : Nat) (ih : TailInv n) : TailInv (n + 1) := by
  refine ⟨?_, ?_, ?_, ?_, ?_, ?_, ?_, ?_, ?_, ?_, ?_, ?_, ?_, ?_, ?_, ?_,
    ?_, ?_, ?_, ?_, ?_, ?_, ?_, ?_, ?_, ?_, ?_, ?_, ?_⟩
  -- ev
  · intro env e out h
    match e with
    | .num l v => simp only [evaluate] at h; cases h; rfl
    | .str l v => simp only [evaluate] at h; cases h; rfl
    | .bool l v => simp only [evaluate] at h; cases h; rfl
    | .sym l name => simp only [evaluate] at h; cases h; rfl
    | .list l els => simp only [evaluate] at h; exact ih.evList env l els out h
  -- evList
  · intro env loc els out h
    match els with
    | [] => simp only [evaluate_list] at h; cases h; rfl
    | first :: args =>
      match first with
      | .sym l name =>
        simp only [evaluate_list] at h
        split at h
        · exact ih.evBuiltin env name args out h
        · cases h; rfl
      | .num l v => simp only [evaluate_list] at h; cases h; rfl
      | .str l v => simp only [evaluate_list] at h; cases h; rfl
      | .bool l v => simp only [evaluate_list] at h; cases h; rfl
      | .list l v => simp only [evaluate_list] at h; cases h; rfl
  -- evBuiltin
  · intro env name args out h
    simp only [evaluate_builtin] at h
    split at h
    · exact ih.evAdd env args out h
    · exact ih.evSub env args out h
    · exact ih.evMul env args out h
    · exact ih.evDiv env args out h
    · exact ih.evGt env args out h
    · exact ih.evGe env args out h
    · exact ih.evLt env args out h
    · exact ih.evLe env args out h
    · exact ih.evEq env args out h
    · exact ih.evIf env args out h
    · exact congrArg List.tail (ih.evLet env args out h)
    · exact ih.evSet env args out h
    · exact ih.evWhile env args out h
    · exact ih.evRgb env args out h
    · exact ih.evStroke env args out h
    · exact ih.evFill env args out h
    · cases h; cases args <;> rfl
    · cases h; cases args <;> rfl
    · exact ih.evRect env args out h
    · exact ih.evLine env args out h
    · cases h; rfl
  -- foldA
  · intro env op msg acc args out h
    match args with
    | [] => simp only [fold_arith] at h; cases h; rfl
    | arg :: rest =>
      simp only [fold_arith] at h
      split at h
      · cases h
      · rename_i heq1
        cases h
        have t0 := ih.ev _ _ _ heq1
        exact t0
      · rename_i heq1
        have t1 := ih.ev _ _ _ heq1
        split at h
        · exact (ih.foldA _ _ _ _ _ _ h).trans t1
        · cases h; exact t1
  -- evAdd
  · intro env args out h
    match args with
    | [] => simp only [evaluate_add] at h; cases h; rfl
    | a :: rest =>
      simp only [evaluate_add] at h
      exact ih.foldA env _ _ 0 (a :: rest) out h
  -- evSub
  · intro env args out h
    match args with
    | [] => simp only [evaluate_subtract] at h; cases h; rfl
    | [a] =>
      simp only [evaluate_subtract] at h
      split at h
      · cases h
      · rename_i heq1
        cases h
        have t0 := ih.ev _ _ _ heq1
        exact t0
      · rename_i heq1
        have t1 := ih.ev _ _ _ heq1
        split at h
        · cases h; exact t1
        · cases h; exact t1
    | a :: b :: rest =>
      simp only [evaluate_subtract] at h
      split at h
      · cases h
      · rename_i heq1
        cases h
        have t0 := ih.ev _ _ _ heq1
        exact t0
      · rename_i heq1
        have t1 := ih.ev _ _ _ heq1
        split at h
        · exact (ih.foldA _ _ _ _ _ _ h).trans t1
        · cases h; exact t1
  -- evMul
  · intro env args out h
    match args with
    | [] => simp only [evaluate_multiply] at h; cases h; rfl
    | a :: rest =>
      simp only [evaluate_multiply] at h
      exact ih.foldA env _ _ 1 (a :: rest) out h
  -- divL
  · intro env acc args out h
    match args with
    | [] => simp only [div_loop] at h; cases h; rfl
    | arg :: rest =>
      simp only [div_loop] at h
      split at h
      · cases h
      · rename_i heq1
        cases h
        have t0 := ih.ev _ _ _ heq1
        exact t0
      · rename_i heq1
        have t1 := ih.ev _ _ _ heq1
        split at h
        · split at h
          · cases h; exact t1
          · exact (ih.divL _ _ _ _ h).trans t1
        · cases h; exact t1
  -- evDiv
  · intro env args out h
    match args with
    | [] => simp only [evaluate_divide] at h; cases h; rfl
    | [a] =>
      simp only [evaluate_divide] at h
      split at h
      · cases h
      · rename_i heq1
        cases h
        have t0 := ih.ev _ _ _ heq1
        exact t0
      · rename_i heq1
        have t1 := ih.ev _ _ _ heq1
        split at h
        · split at h
          · cases h; exact t1
          · cases h; exact t1
        · cases h; exact t1
    | a :: b :: rest =>
      simp only [evaluate_divide] at h
      split at h
      · cases h
      · rename_i heq1
        cases h
        have t0 := ih.ev _ _ _ heq1
        exact t0
      · rename_i heq1
        have t1 := ih.ev _ _ _ heq1
        split at h
        · exact (ih.divL _ _ _ _ h).trans t1
        · cases h; exact t1
  -- cmpL
  · intro env rel a b rest out h
    simp only [compare_loop] at h
    split at h
    · cases h
    · rename_i heq1
      cases h
      have t0 := ih.ev _ _ _ heq1
      exact t0
    · rename_i heq1
      have t1 := ih.ev _ _ _ heq1
      split at h
      · cases h
      · rename_i heq2
        cases h
        have t0 := (ih.ev _ _ _ heq2).trans t1
        exact t0
      · rename_i heq2
        have t2 := (ih.ev _ _ _ heq2).trans t1
        split at h
        · split at h
          · match rest with
            | [] => cases h; exact t2
            | c :: rest2 => exact (ih.cmpL _ _ _ _ _ _ h).trans t2
          · cases h; exact t2
        · cases h; exact t2
  -- evGt
  · intro env args out h
    match args with
    | [] => simp only [evaluate_greater_than] at h; cases h; rfl
    | [a] => simp only [evaluate_greater_than] at h; cases h; rfl
    | a :: b :: rest =>
      simp only [evaluate_greater_than] at h
      exact ih.cmpL env _ a b rest out h
  -- evGe
  · intro env args out h
    match args with
    | [] => simp only [evaluate_greater_equal] at h; cases h; rfl
    | [a] => simp only [evaluate_greater_equal] at h; cases h; rfl
    | a :: b :: rest =>
      simp only [evaluate_greater_equal] at h
      exact ih.cmpL env _ a b rest out h
  -- evLt
  · intro env args out h
    match args with
    | [] => simp only [evaluate_less_than] at h; cases h; rfl
    | [a] => simp only [evaluate_less_than] at h; cases h; rfl
    | a :: b :: rest =>
      simp only [evaluate_less_than] at h
      exact ih.cmpL env _ a b rest out h
  -- evLe
  · intro env args out h
    match args with
    | [] => simp only [evaluate_less_equal] at h; cases h; rfl
    | [a] => simp only [evaluate_less_equal] at h; cases h; rfl
    | a :: b :: rest =>
      simp only [evaluate_less_equal] at h
      exact ih.cmpL env _ a b rest out h
  -- eqL
  · intro env first firstLoc i args out h
    match args with
    | [] => simp only [equal_loop] at h; cases h; rfl
    | arg :: rest =>
      simp only [equal_loop] at h
      split at h
      · cases h
      · rename_i heq1
        cases h
        have t0 := ih.ev _ _ _ heq1
        exact t0
      · rename_i heq1
        have t1 := ih.ev _ _ _ heq1
        split at h
        · cases h; exact t1
        · split at h
          all_goals try split at h
          all_goals first
            | (cases h; exact t1)
            | exact (ih.eqL _ _ _ _ _ _ h).trans t1
  -- evEq
  · intro env args out h
    match args with
    | [] => simp only [evaluate_equal] at h; cases h; rfl
    | [a] => simp only [evaluate_equal] at h; cases h; rfl
    | a :: b :: rest =>
      simp only [evaluate_equal] at h
      split at h
      · cases h
      · rename_i heq1
        cases h
        have t0 := ih.ev _ _ _ heq1
        exact t0
      · rename_i heq1
        have t1 := ih.ev _ _ _ heq1
        split at h
        · cases h; exact t1
        · exact (ih.eqL _ _ _ _ _ _ h).trans t1
  -- evIf
  · intro env args out h
    match args with
    | [] => simp only [evaluate_if] at h; cases h; rfl
    | [a] => simp only [evaluate_if] at h; cases h; rfl
    | [a, b] => simp only [evaluate_if] at h; cases h; rfl
    | a :: b :: c :: d :: rest => simp only [evaluate_if] at h; cases h; rfl
    | [cE, tE, fE] =>
      simp only [evaluate_if] at h
      split at h
      · cases h
      · rename_i heq1
        cases h
        have t0 := ih.ev _ _ _ heq1
        exact t0
      · rename_i heq1
        have t1 := ih.ev _ _ _ heq1
        split at h
        · cases h; exact t1
        · split at h
          · cases h; exact t1
          · split at h
            · cases h
            · rename_i heq2
              cases h
              have t0 := (ih.ev _ _ _ heq2).trans t1
              exact t0
            · rename_i heq2
              cases h
              have t0 := (ih.ev _ _ _ heq2).trans t1
              exact t0
            · rename_i heq2
              cases h
              have t0 := (ih.ev _ _ _ heq2).trans t1
              exact t0
          · split at h
            · cases h
            · rename_i heq2
              cases h
              have t0 := (ih.ev _ _ _ heq2).trans t1
              exact t0
            · rename_i heq2
              cases h
              have t0 := (ih.ev _ _ _ heq2).trans t1
              exact t0
            · rename_i heq2
              cases h
              have t0 := (ih.ev _ _ _ heq2).trans t1
              exact t0
  -- letB
  · intro env bs out h
    match bs with
    | [] => simp only [let_bindings] at h; cases h; rfl
    | binding :: rest =>
      simp only [let_bindings] at h
      split at h
      · split at h
        · cases h
        · rename_i heq1
          cases h
          have t0 := ih.ev _ _ _ heq1
          exact t0
        · rename_i heq1
          cases h
          have t0 := ih.ev _ _ _ heq1
          exact t0
        · rename_i heq1
          exact (ih.letB _ _ _ h).trans
            ((SymbolTable.tail_set _ _ _).trans (ih.ev _ _ _ heq1))
      · cases h; rfl
  -- letBody
  · intro env loc0 exprs out h
    match exprs with
    | [] => simp only [let_body] at h; cases h; rfl
    | [e] =>
      simp only [let_body] at h
      exact ih.ev env e out h
    | e :: f :: rest =>
      simp only [let_body] at h
      split at h
      · cases h
      · rename_i heq1
        exact (ih.letBody _ _ _ _ h).trans (ih.ev _ _ _ heq1)
  -- evLet
  · intro env args out h
    match args with
    | [] => simp only [evaluate_let] at h; cases h; rfl
    | [a] => simp only [evaluate_let] at h; cases h; rfl
    | bindings :: e1 :: exprs =>
      match bindings with
      | .list bloc blist =>
        simp only [evaluate_let] at h
        split at h
        · cases h
        · rename_i heq1
          cases h
          exact ih.letB _ _ _ heq1
        · rename_i heq1
          have tb : _ = env.symbolTable := ih.letB _ _ _ heq1
          split at h
          · cases h
          · rename_i heq2
            cases h
            exact (ih.letBody _ _ _ _ heq2).trans tb
      | .num l v => simp only [evaluate_let] at h; cases h; rfl
      | .str l v => simp only [evaluate_let] at h; cases h; rfl
      | .bool l v => simp only [evaluate_let] at h; cases h; rfl
      | .sym l v => simp only [evaluate_let] at h; cases h; rfl
  -- evSet
  · intro env args out h
    match args with
    | [] => simp only [evaluate_set] at h; cases h; rfl
    | [a] => simp only [evaluate_set] at h; cases h; rfl
    | a :: b :: c :: rest => simp only [evaluate_set] at h; cases h; rfl
    | [first, second] =>
      have tstep : ∀ r env2,
          (match first with
           | .sym l nm => some (Result.ok (some (Expr.sym l nm)), env)
           | _ => evaluate n env first) = some (r, env2) →
          env2.symbolTable.tail = env.symbolTable.tail := by
        match first with
        | .sym l nm => intro r env2 hh; cases hh; rfl
        | .num lv vv => intro r env2 hh; exact ih.ev env (.num lv vv) _ hh
        | .str lv vv => intro r env2 hh; exact ih.ev env (.str lv vv) _ hh
        | .bool lv vv => intro r env2 hh; exact ih.ev env (.bool lv vv) _ hh
        | .list lv vv => intro r env2 hh; exact ih.ev env (.list lv vv) _ hh
      simp only [evaluate_set] at h
      split at h
      · cases h
      · rename_i p r1 env2 heq1
        have t1 := tstep r1 env2 heq1
        split at h
        · split at h
          · cases h; exact t1
          · split at h
            · cases h
            · rename_i heq2
              cases h
              exact (SymbolTable.tail_set _ _ _).trans
                ((ih.ev _ _ _ heq2).trans t1)
            · rename_i heq2
              cases h
              have t0 := (ih.ev _ _ _ heq2).trans t1
              exact t0
        · cases h; exact t1
  -- whileB
  · intro env exprs out h
    match exprs with
    | [] => simp only [while_body] at h; cases h; rfl
    | e :: rest =>
      simp only [while_body] at h
      split at h
      · cases h
      · rename_i heq1
        cases h
        have t0 := ih.ev _ _ _ heq1
        exact t0
      · rename_i heq1
        exact (ih.whileB _ _ _ h).trans (ih.ev _ _ _ heq1)
  -- whileL
  · intro env c body k out h
    simp only [while_loop] at h
    split at h
    · cases h; rfl
    · split at h
      · cases h
      · rename_i heq1
        cases h
        have t0 := ih.ev _ _ _ heq1
        exact t0
      · rename_i heq1
        cases h
        have t0 := ih.ev _ _ _ heq1
        exact t0
      · rename_i heq1
        have t1 := ih.ev _ _ _ heq1
        split at h
        · cases h; exact t1
        · cases h; exact t1
        · split at h
          · cases h
          · rename_i heq2
            cases h
            exact (ih.whileB _ _ _ heq2).trans t1
          · rename_i heq2
            have t2 := (ih.whileB _ _ _ heq2).trans t1
            exact (ih.whileL _ _ _ _ _ h).trans t2
  -- evWhile
  · intro env args out h
    match args with
    | [] => simp only [evaluate_while] at h; cases h; rfl
    | c :: body =>
      simp only [evaluate_while] at h
      exact ih.whileL env c body 0 out h
  -- evRgb
  · intro env args out h
    match args with
    | [] => simp only [evaluate_rgb] at h; cases h; rfl
    | [a] => simp only [evaluate_rgb] at h; cases h; rfl
    | [a, b] => simp only [evaluate_rgb] at h; cases h; rfl
    | a :: b :: c :: d :: rest => simp only [evaluate_rgb] at h; cases h; rfl
    | [rE, gE, bE] =>
      simp only [evaluate_rgb] at h
      split at h
      · cases h
      · rename_i heq1
        cases h
        have t0 := ih.ev _ _ _ heq1
        exact t0
      · rename_i heq1
        have t1 := ih.ev _ _ _ heq1
        split at h
        · split at h
          · cases h
          · rename_i heq2
            cases h
            have t0 := (ih.ev _ _ _ heq2).trans t1
            exact t0
          · rename_i heq2
            have t2 := (ih.ev _ _ _ heq2).trans t1
            split at h
            · split at h
              · cases h
              · rename_i heq3
                cases h
                have t0 := (ih.ev _ _ _ heq3).trans t2
                exact t0
              · rename_i heq3
                have t3 := (ih.ev _ _ _ heq3).trans t2
                split at h
                · cases h; exact t3
                · cases h; exact t3
            · cases h; exact t2
        · cases h; exact t1
  -- evStroke
  · intro env args out h
    match args with
    | [] => simp only [evaluate_stroke] at h; cases h; rfl
    | a :: b :: rest => simp only [evaluate_stroke] at h; cases h; rfl
    | [colorExpr] =>
      simp only [evaluate_stroke] at h
      split at h
      · cases h
      · rename_i heq1
        cases h
        have t0 := ih.ev _ _ _ heq1
        exact t0
      · rename_i heq1
        have t1 := ih.ev _ _ _ heq1
        split at h
        · cases h; exact t1
        · cases h; exact t1
  -- evFill
  · intro env args out h
    match args with
    | [] => simp only [evaluate_fill] at h; cases h; rfl
    | a :: b :: rest => simp only [evaluate_fill] at h; cases h; rfl
    | [colorExpr] =>
      simp only [evaluate_fill] at h
      split at h
      · cases h
      · rename_i heq1
        cases h
        have t0 := ih.ev _ _ _ heq1
        exact t0
      · rename_i heq1
        have t1 := ih.ev _ _ _ heq1
        split at h
        · cases h; exact t1
        · cases h; exact t1
  -- evRect
  · intro env args out h
    match args with
    | [] => simp only [evaluate_rect] at h; cases h; rfl
    | [a] => simp only [evaluate_rect] at h; cases h; rfl
    | [a, b] => simp only [evaluate_rect] at h; cases h; rfl
    | [a, b, c] => simp only [evaluate_rect] at h; cases h; rfl
    | a :: b :: c :: d :: e :: rest => simp only [evaluate_rect] at h; cases h; rfl
    | [xE, yE, wE, hE] =>
      simp only [evaluate_rect] at h
      split at h
      · cases h
      · rename_i heq1
        cases h
        have t0 := ih.ev _ _ _ heq1
        exact t0
      · rename_i heq1
        have t1 := ih.ev _ _ _ heq1
        split at h
        · split at h
          · cases h
          · rename_i heq2
            cases h
            have t0 := (ih.ev _ _ _ heq2).trans t1
            exact t0
          · rename_i heq2
            have t2 := (ih.ev _ _ _ heq2).trans t1
            split at h
            · split at h
              · cases h
              · rename_i heq3
                cases h
                have t0 := (ih.ev _ _ _ heq3).trans t2
                exact t0
              · rename_i heq3
                have t3 := (ih.ev _ _ _ heq3).trans t2
                split at h
                · split at h
                  · cases h
                  · rename_i heq4
                    cases h
                    have t0 := (ih.ev _ _ _ heq4).trans t3
                    exact t0
                  · rename_i heq4
                    have t4 := (ih.ev _ _ _ heq4).trans t3
                    split at h
                    · cases h; exact t4
                    · cases h; exact t4
                · cases h; exact t3
            · cases h; exact t2
        · cases h; exact t1
  -- evLine
  · intro env args out h
    match args with
    | [] => simp only [evaluate_line] at h; cases h; rfl
    | [a] => simp only [evaluate_line] at h; cases h; rfl
    | [a, b] => simp only [evaluate_line] at h; cases h; rfl
    | [a, b, c] => simp only [evaluate_line] at h; cases h; rfl
    | a :: b :: c :: d :: e :: rest => simp only [evaluate_line] at h; cases h; rfl
    | [xE, yE, wE, hE] =>
      simp only [evaluate_line] at h
      split at h
      · cases h
      · rename_i heq1
        cases h
        have t0 := ih.ev _ _ _ heq1
        exact t0
      · rename_i heq1
        have t1 := ih.ev _ _ _ heq1
        split at h
        · split at h
          · cases h
          · rename_i heq2
            cases h
            have t0 := (ih.ev _ _ _ heq2).trans t1
            exact t0
          · rename_i heq2
            have t2 := (ih.ev _ _ _ heq2).trans t1
            split at h
            · split at h
              · cases h
              · rename_i heq3
                cases h
                have t0 := (ih.ev _ _ _ heq3).trans t2
                exact t0
              · rename_i heq3
                have t3 := (ih.ev _ _ _ heq3).trans t2
                split at h
                · split at h
                  · cases h
                  · rename_i heq4
                    cases h
                    have t0 := (ih.ev _ _ _ heq4).trans t3
                    exact t0
                  · rename_i heq4
                    have t4 := (ih.ev _ _ _ heq4).trans t3
                    split at h
                    · cases h; exact t4
                    · cases h; exact t4
                · cases h; exact t3
            · cases h; exact t2
        · cases h; exact t1

theorem tailInv_all : ∀ n, TailInv n := by
  intro n
  induction n with
  | zero => exact tailInv_zero
  | succ n ih => exact tailInv_succ n ih

end ArtLang

namespace ArtLang

/-- One pass of the capped `while true` increment loop: below the guard, an
iteration advances `i` by one and the counter by one, consuming one unit of
fuel. -/
theorem while_cap_step (fuel : Nat) (q : ℚ) (cv : CanvasState) (counter : Nat)
    (hc : counter ≤ 1000000) :
    while_loop (fuel + 13) (envIc q cv) (Expr.sym none "true") [setIncrExpr] counter
      = while_loop (fuel + 12) (envIc (q + 1) cv) (Expr.sym none "true")
          [setIncrExpr] (counter + 1) := by
  conv_lhs => rw [while_loop]
  rw [if_neg (by omega : ¬ (counter > 1000000))]
  show while_loop (fuel + 12) (envIc (0 + q + 1) cv) (Expr.sym none "true")
      [setIncrExpr] (counter + 1)
    = while_loop (fuel + 12) (envIc (q + 1) cv) (Expr.sym none "true")
        [setIncrExpr] (counter + 1)
  rw [zero_add]

/-- The capped `while true` increment loop from counter value `counter` runs
the body exactly `j = 1000001 - counter` more times and then fails with the
infinite-loop-protection error: the guard only trips once the counter
exceeds 1,000,000. -/
theorem while_cap (j : Nat) : ∀ (fuel : Nat) (q : ℚ) (cv : CanvasState)
    (counter : Nat), counter + j = 1000001 →
    while_loop (fuel + j + 13) (envIc q cv) (Expr.sym none "true")
        [setIncrExpr] counter
      = some (.err ⟨"Infinite loop protection, passed 1 million iterations",
          none, none⟩, envIc (q + j) cv) := by
  induction j with
  | zero =>
    intro fuel q cv counter hc
    have hc1 : counter = 1000001 := by omega
    subst hc1
    conv_lhs => rw [while_loop]
    rw [if_pos (by omega : (1000001 : Nat) > 1000000)]
    norm_num [locatedError, setIncrExpr, Expr.location]
  | succ j ihj =>
    intro fuel q cv counter hc
    have h1 : fuel + (j + 1) + 13 = (fuel + 1) + j + 13 := by omega
    rw [h1]
    have h2 : (fuel + 1) + j + 13 = ((fuel + 1) + j) + 13 := by omega
    rw [h2, while_cap_step ((fuel + 1) + j) q cv counter (by omega)]
    have h3 : (fuel + 1) + j + 12 = fuel + j + 13 := by omega
    rw [h3, ihj fuel (q + 1) cv (counter + 1) (by omega)]
    have h4 : q + 1 + (j : ℚ) = q + ((j : ℚ) + 1) := by ring
    rw [h4]
    norm_num

/-- `run_loop` produces exactly one result per program expression. -/
theorem run_loop_len : ∀ (prog : List Expr) (fuel : Nat) (env : Environment)
    (out : List EvalResult × Environment),
    run_loop fuel env prog = some out → out.1.length = prog.length := by
  intro prog
  induction prog with
  | nil => intro fuel env out h; simp only [run_loop] at h; cases h; rfl
  | cons e rest ihp =>
    intro fuel env out h
    simp only [run_loop] at h
    split at h
    · cases h
    · rename_i heq1
      split at h
      · cases h
      · rename_i heq2
        cases h
        simp only [List.length_cons]
        rw [ihp _ _ _ heq2]

/-- The divisor loop over nonzero numeric literals left-folds division into
the accumulator. -/
theorem div_loop_fold : ∀ (qs : List (Option Nat × ℚ)) (fuel : Nat)
    (env : Environment) (acc : ℚ), (∀ p ∈ qs, p.2 ≠ 0) →
    div_loop (fuel + qs.length + 1) env acc (qs.map fun p => Expr.num p.1 p.2)
      = some (.ok (some (Expr.num none (qs.foldl (fun a p => a / p.2) acc))), env) := by
  intro qs
  induction qs with
  | nil => intro fuel env acc hz; simp [div_loop]
  | cons p qs ihq =>
    intro fuel env acc hz
    rw [show fuel + (p :: qs).length + 1 = (fuel + qs.length + 1) + 1 from by
      simp [List.length_cons]; omega]
    simp only [List.map_cons]
    conv_lhs => rw [div_loop]
    simp only [evaluate]
    rw [if_neg (hz p (List.mem_cons_self p qs))]
    rw [ihq fuel env (acc / p.2) (fun q hq => hz q (List.mem_cons_of_mem p hq))]
    simp

/-- The divisor loop stops with the `Division by zero` error at the first
zero divisor, located at that argument. -/
theorem div_loop_zero : ∀ (qs1 : List (Option Nat × ℚ)) (fuel : Nat)
    (env : Environment) (acc : ℚ) (l0 : Option Nat) (rest2 : List Expr),
    (∀ p ∈ qs1, p.2 ≠ 0) →
    div_loop (fuel + qs1.length + 2) env acc
      ((qs1.map fun p => Expr.num p.1 p.2) ++ Expr.num l0 0 :: rest2)
      = some (locatedError "Division by zero" l0 none, env) := by
  intro qs1
  induction qs1 with
  | nil =>
    intro fuel env acc l0 rest2 hz
    rw [show fuel + List.length [] + 2 = (fuel + 1) + 1 from by simp]
    simp only [List.map_nil, List.nil_append]
    conv_lhs => rw [div_loop]
    simp only [evaluate]
    simp [Expr.location]
  | cons p qs ihq =>
    intro fuel env acc l0 rest2 hz
    rw [show fuel + (p :: qs).length + 2 = (fuel + qs.length + 2) + 1 from by
      simp [List.length_cons]; omega]
    simp only [List.map_cons, List.cons_append]
    conv_lhs => rw [div_loop]
    simp only [evaluate]
    rw [if_neg (hz p (List.mem_cons_self p qs))]
    exact ihq fuel env (acc / p.2) l0 rest2 (fun q hq => hz q (List.mem_cons_of_mem p hq))

end ArtLang

namespace ArtLang

/-- Claim C1: `run(program, surface, width, height)` returns one result per
top-level expression in source order against one shared root environment
seeded with numeric `width`/`height` bindings that `set` can rebind; in
particular `(rect 0 0 width height)` with width = height = 300 parses to the
expected tree and runs without error, drawing one 300×300 rectangle at the
origin. -/
theorem claim_C1_run_contract :
    (∀ (fuel : Nat) (prog : List Expr) (cv : CanvasState) (w h : ℚ)
      (out : List EvalResult × Environment),
      run fuel prog cv w h = some out → out.1.length = prog.length)
    ∧ (∀ (w h : ℚ),
      SymbolTable.lookup
          [[("width", Expr.num none w), ("height", Expr.num none h)]] "width"
        = some (Expr.num none w)
      ∧ SymbolTable.lookup
          [[("width", Expr.num none w), ("height", Expr.num none h)]] "height"
        = some (Expr.num none h))
    ∧ (∀ (cv : CanvasState) (w h v : ℚ),
      evaluate 10
        { symbolTable := [[("width", Expr.num none w), ("height", Expr.num none h)]],
          canvas := cv }
        (Expr.list none [Expr.sym none "set", Expr.sym none "width", Expr.num none v])
        = some (.ok (some (Expr.num none v)),
            { symbolTable := [[("width", Expr.num none v), ("height", Expr.num none h)]],
              canvas := cv }))
    ∧ (parse 30 "(rect 0 0 width height)" = some (.ok [rectWHAst])
      ∧ (run 30 [rectWHAst] CanvasState.initial 300 300).map
            (fun out => (out.1, out.2.canvas.ops))
          = some ([Result.ok none],
              [CanvasOp.beginPath, CanvasOp.rect 0 0 300 300,
               CanvasOp.fillOp, CanvasOp.strokeOp])) := by
  refine ⟨?_, ?_, ?_, ?_, ?_⟩
  · intro fuel prog cv w h out hrun
    exact run_loop_len prog fuel _ out hrun
  · intro w h
    exact ⟨rfl, rfl⟩
  · intro cv w h v
    with_unfolding_all rfl
  · with_unfolding_all rfl
  · with_unfolding_all rfl

/-- Claim C1 witness: the length contract applied to the one-expression
program consisting of the literal 7, seeded with width = height = 1. -/
theorem claim_C1_witness :
    (([Result.ok (some (Expr.num none 7))],
      ({ symbolTable := [[("width", Expr.num none 1), ("height", Expr.num none 1)]],
         canvas := CanvasState.initial } : Environment)) :
        List EvalResult × Environment).1.length
      = [Expr.num none 7].length :=
  claim_C1_run_contract.1 5 [Expr.num none 7] CanvasState.initial 1 1 _
    (by with_unfolding_all rfl)

/-- Claim C2: `rect` with four numeric arguments succeeds (no error) and
mutates the surface — begin path, add the rectangle, fill if the fill color
is not "none", stroke if the stroke color is not "none"; `line` succeeds and
begin-paths, moves, lines and strokes only when the stroke color is not
"none" (never fills); `noStroke`/`noFill` set the respective color to the
sentinel "none" and succeed. -/
theorem claim_C2_drawing_builtins :
    (∀ (fuel : Nat) (env : Environment) (lx ly lw lh : Option Nat) (x y w h : ℚ),
      evaluate_rect (fuel + 2) env
          [Expr.num lx x, Expr.num ly y, Expr.num lw w, Expr.num lh h]
        = some (.ok none, { env with canvas := rect_draw env.canvas x y w h }))
    ∧ (∀ (fuel : Nat) (env : Environment) (lx ly lw lh : Option Nat) (x y w h : ℚ),
      evaluate_line (fuel + 2) env
          [Expr.num lx x, Expr.num ly y, Expr.num lw w, Expr.num lh h]
        = some (.ok none, { env with canvas := line_draw env.canvas x y w h }))
    ∧ (∀ (env : Environment),
      evaluate_noStroke env []
        = (.ok none, { env with canvas := { env.canvas with strokeStyle := "none" } }))
    ∧ (∀ (env : Environment),
      evaluate_noFill env []
        = (.ok none, { env with canvas := { env.canvas with fillStyle := "none" } }))
    ∧ (∀ (c : CanvasState) (x y w h : ℚ),
      (rect_draw c x y w h).ops
        = c.ops ++ ([CanvasOp.beginPath, CanvasOp.rect x y w h]
            ++ ((if c.fillStyle ≠ "none" then [CanvasOp.fillOp] else [])
              ++ (if c.strokeStyle ≠ "none" then [CanvasOp.strokeOp] else []))))
    ∧ (∀ (c : CanvasState) (x1 y1 x2 y2 : ℚ),
      (line_draw c x1 y1 x2 y2).ops
        = c.ops ++ ([CanvasOp.beginPath, CanvasOp.moveTo x1 y1, CanvasOp.lineTo x2 y2]
            ++ (if c.strokeStyle ≠ "none" then [CanvasOp.strokeOp] else []))) := by
  refine ⟨?_, ?_, ?_, ?_, ?_, ?_⟩
  · intro fuel env lx ly lw lh x y w h
    with_unfolding_all rfl
  · intro fuel env lx ly lw lh x y w h
    with_unfolding_all rfl
  · intro env; rfl
  · intro env; rfl
  · intro c x y w h
    simp only [rect_draw, CanvasState.push]
    split <;> split <;> simp
  · intro c x1 y1 x2 y2
    simp only [line_draw, CanvasState.push]
    split <;> simp

/-- Claim C3 counterexample: in `(let () (div 1 0) 42)` the first body
expression evaluates to the fatal `Division by zero` error, yet the `let`
returns `Ok 42` — the last body result — rather than that first error. -/
theorem claim_C3_counterexample :
    evaluate 20 env0 letDivErrExpr
      = some (.ok (some (Expr.num none 42)), env0) := by
  with_unfolding_all rfl

/-- Claim C3 amended: errors propagate out of most forms, but a `let` maps
evaluation over all its body expressions and returns only the last result,
discarding errors of earlier body expressions (shown here for a body whose
first expression divides an arbitrary number by zero); later top-level
expressions are still evaluated by the driver whatever result the previous
one produced. -/
theorem claim_C3_let_body_amended :
    (∀ (cv : CanvasState) (st : SymbolTable) (a k : ℚ) (la l0 lk : Option Nat),
      evaluate 20 { symbolTable := st, canvas := cv }
        (Expr.list none [Expr.sym none "let", Expr.list none [],
          Expr.list none [Expr.sym none "/", Expr.num la a, Expr.num l0 0],
          Expr.num lk k])
        = some (.ok (some (Expr.num lk k)), { symbolTable := st, canvas := cv }))
    ∧ (∀ (fuel : Nat) (env env2 : Environment) (e : Expr) (rest : List Expr)
      (r : EvalResult), evaluate fuel env e = some (r, env2) →
      run_loop fuel env (e :: rest)
        = (match run_loop fuel env2 rest with
           | none => none
           | some (rs, env3) => some (r :: rs, env3))) := by
  constructor
  · intro cv st a k la l0 lk
    with_unfolding_all rfl
  · intro fuel env env2 e rest r h
    simp only [run_loop, h]

/-- Claim C3 witness: the driver decomposition applied to the literal 1 as
the first of one top-level expression. -/
theorem claim_C3_witness :
    run_loop 5 env0 [Expr.num none 1]
      = (match run_loop 5 env0 [] with
         | none => none
         | some (rs, env3) => some (Result.ok (some (Expr.num none 1)) :: rs, env3)) :=
  claim_C3_let_body_amended.2 5 env0 env0 (Expr.num none 1) []
    (Result.ok (some (Expr.num none 1))) (by with_unfolding_all rfl)

/-- Claim C4 counterexample: in the chained comparison of 0, `(set i (+ i 1))`
and 9 starting from i = 0, the effectful middle argument executes twice —
the final environment holds i = 2, not i = 1 — refuting once-per-visit
evaluation of list elements. -/
theorem claim_C4_counterexample :
    evaluate 20 (envIc 0 CanvasState.initial) chainedCmpExpr
      = some (.ok (some (Expr.bool none true)), envIc 2 CanvasState.initial) := by
  with_unfolding_all rfl

/-- Claim C4 amended: the comparison builtins evaluate every consecutive
pair of arguments, so an interior argument of a chained comparison is
evaluated twice (once as the right element of one pair and once as the left
element of the next): over any surface, the chained comparison of 0, the
increment-i-side-effect and 9 from i = 0 returns true with i = 2
afterwards. -/
theorem claim_C4_chained_comparison_amended (cv : CanvasState) :
    evaluate 20 (envIc 0 cv) chainedCmpExpr
      = some (.ok (some (Expr.bool none true)), envIc 2 cv) := by
  with_unfolding_all rfl

set_option maxHeartbeats 1000000 in
/-- Claim C5 counterexample: with an always-true condition and the body
`(set i (+ i 1))` from i = 0, the loop fails closed only after the body has
run 1,000,001 times — the final environment holds i = 1,000,001, one more
than the 1,000,000 iterations the claim allows. -/
theorem claim_C5_counterexample :
    evaluate 1000018 (envIc 0 CanvasState.initial) whileTrueExpr
      = some (.err ⟨"Infinite loop protection, passed 1 million iterations",
          none, none⟩, envIc 1000001 CanvasState.initial) := by
  have hb : evaluate 1000018 (envIc 0 CanvasState.initial) whileTrueExpr
      = while_loop 1000014 (envIc 0 CanvasState.initial) (Expr.sym none "true")
          [setIncrExpr] 0 := by
    rw [show (1000018 : Nat) = 1000017 + 1 from rfl]
    simp only [whileTrueExpr, evaluate]
    rw [show (1000017 : Nat) = 1000016 + 1 from rfl]
    simp only [evaluate_list, BUILTIN_SYMBOLS, List.contains, List.elem,
      String.reduceBEq, reduceIte]
    rw [show (1000016 : Nat) = 1000015 + 1 from rfl]
    simp only [evaluate_builtin]
    rw [show (1000015 : Nat) = 1000014 + 1 from rfl]
    simp only [evaluate_while]
  have hc := while_cap 1000001 0 0 CanvasState.initial 0 (by norm_num)
  rw [show (0 : Nat) + 1000001 + 13 = 1000014 from rfl] at hc
  rw [show (0 : ℚ) + (1000001 : Nat) = (1000001 : ℚ) from by norm_num] at hc
  rw [hb, hc]

/-- Claim C5 amended: a falsy condition stops the loop returning boolean
`false` carrying the condition's offset; the counting loop to 5 terminates
returning `false` with i = 5 afterwards; and the iteration cap fails closed
once the counter exceeds 1,000,000 — the guard trips on the pass after
1,000,001 body iterations (one more than 1,000,000), never silently
truncating. -/
theorem claim_C5_while_amended :
    (∀ (fuel : Nat) (env env2 : Environment) (conditionExpr : Expr)
      (bodyExprs : List Expr) (counter : Nat) (c : Expr),
      counter ≤ 1000000 →
      evaluate fuel env conditionExpr = some (.ok (some c), env2) →
      truthinessOf c = some false →
      while_loop (fuel + 1) env conditionExpr bodyExprs counter
        = some (.ok (some (Expr.bool conditionExpr.location false)), env2))
    ∧ (evaluate 40 (envIc 0 CanvasState.initial) whileCountExpr
        = some (.ok (some (Expr.bool none false)), envIc 5 CanvasState.initial)
      ∧ (envIc 5 CanvasState.initial).symbolTable.lookup "i"
        = some (Expr.num none 5))
    ∧ (∀ (j fuel : Nat) (q : ℚ) (cv : CanvasState) (counter : Nat),
      counter + j = 1000001 →
      while_loop (fuel + j + 13) (envIc q cv) (Expr.sym none "true")
          [setIncrExpr] counter
        = some (.err ⟨"Infinite loop protection, passed 1 million iterations",
            none, none⟩, envIc (q + j) cv)) := by
  refine ⟨?_, ⟨?_, rfl⟩, ?_⟩
  · intro fuel env env2 conditionExpr bodyExprs counter c hcnt hev htr
    conv_lhs => rw [while_loop]
    rw [if_neg (by omega : ¬ (counter > 1000000))]
    simp only [hev, htr]
  · with_unfolding_all rfl
  · intro j fuel q cv counter hcj
    exact while_cap j fuel q cv counter hcj

/-- Claim C5 witness: the falsy-stop rule applied to a literal false
condition with an empty body, and the cap rule applied from counter 0. -/
theorem claim_C5_witness :
    (while_loop (3 + 1) env0 (Expr.bool none false) [] 0
      = some (.ok (some (Expr.bool none false)), env0))
    ∧ (while_loop (0 + 1000001 + 13) (envIc 0 CanvasState.initial)
        (Expr.sym none "true") [setIncrExpr] 0
      = some (.err ⟨"Infinite loop protection, passed 1 million iterations",
          none, none⟩, envIc (0 + ((1000001 : Nat) : ℚ)) CanvasState.initial)) :=
  ⟨claim_C5_while_amended.1 3 env0 env0 (Expr.bool none false) [] 0
      (Expr.bool none false) (by norm_num) (by with_unfolding_all rfl) rfl,
   claim_C5_while_amended.2.2 1000001 0 0 CanvasState.initial 0 (by norm_num)⟩

end ArtLang

namespace ArtLang

/-- Claim C6: `if` evaluates its condition; on truthy it evaluates only the
then-branch, on falsy only the else-branch (the untaken branch's effects
never run, shown by the generic rules taking an arbitrary branch
expression that is evaluated only in its own case); concretely
`(if true 42 (div 1 0))` returns `Ok 42` with no error. -/
theorem claim_C6_if :
    (∀ (fuel : Nat) (env env2 : Environment) (c thenE elseE : Expr) (cv : Expr),
      evaluate fuel env c = some (.ok (some cv), env2) →
      truthinessOf cv = some true →
      evaluate_if (fuel + 1) env [c, thenE, elseE]
        = (match evaluate fuel env2 thenE with
           | none => none
           | some (.err e, env3) => some (.err e, env3)
           | some (.ok none, env3) =>
             some (locatedError "if true branch produced no result"
               thenE.location none, env3)
           | some (.ok (some value), env3) => some (.ok (some value), env3)))
    ∧ (∀ (fuel : Nat) (env env2 : Environment) (c thenE elseE : Expr) (cv : Expr),
      evaluate fuel env c = some (.ok (some cv), env2) →
      truthinessOf cv = some false →
      evaluate_if (fuel + 1) env [c, thenE, elseE]
        = (match evaluate fuel env2 elseE with
           | none => none
           | some (.err e, env3) => some (.err e, env3)
           | some (.ok none, env3) =>
             some (locatedError "if false branch produced no result"
               elseE.location none, env3)
           | some (.ok (some value), env3) => some (.ok (some value), env3)))
    ∧ evaluate 20 env0 ifTrue42Expr
      = some (.ok (some (Expr.num none 42)), env0) := by
  refine ⟨?_, ?_, ?_⟩
  · intro fuel env env2 c thenE elseE cv hev htr
    simp only [evaluate_if, hev, htr]
  · intro fuel env env2 c thenE elseE cv hev htr
    simp only [evaluate_if, hev, htr]
  · with_unfolding_all rfl

/-- Claim C6 witness: the truthy rule applied to the literal condition true
with branches 1 and 2 selects the then-branch. -/
theorem claim_C6_witness :
    evaluate_if (5 + 1) env0
        [Expr.bool none true, Expr.num none 1, Expr.num none 2]
      = (match evaluate 5 env0 (Expr.num none 1) with
         | none => none
         | some (.err e, env3) => some (.err e, env3)
         | some (.ok none, env3) =>
           some (locatedError "if true branch produced no result"
             (Expr.num none 1).location none, env3)
         | some (.ok (some value), env3) => some (.ok (some value), env3)) :=
  claim_C6_if.1 5 env0 env0 (Expr.bool none true) (Expr.num none 1)
    (Expr.num none 2) (Expr.bool none true) (by with_unfolding_all rfl) rfl

/-- Claim C7: `div` with one argument returns the reciprocal of its numeric
value, erroring with "Division by zero" at that argument's offset when it is
zero; with two or more arguments it folds division left-to-right: with all
divisors nonzero the result is the successive exact quotient, and the first
zero divisor stops evaluation with the fatal error "Division by zero"
located at that argument (whatever follows it) — in particular `(/ a 0)`
always errors so; concretely `(div 12 3 2)` is 2 and `(div 1 0)` is the
error at the zero's offset. -/
theorem claim_C7_divide :
    (evaluate 20 env0
        (Expr.list none [Expr.sym none "/", Expr.num none 12,
          Expr.num none 3, Expr.num none 2])
      = some (.ok (some (Expr.num none 2)), env0))
    ∧ (evaluate 20 env0
        (Expr.list none [Expr.sym none "/", Expr.num (some 1) 1,
          Expr.num (some 7) 0])
      = some (.err ⟨"Division by zero", some 7, none⟩, env0))
    ∧ (∀ (fuel : Nat) (env : Environment) (l : Option Nat) (x : ℚ),
      x ≠ 0 →
      evaluate_divide (fuel + 2) env [Expr.num l x]
        = some (.ok (some (Expr.num none (1 / x))), env))
    ∧ (∀ (fuel : Nat) (env : Environment) (l : Option Nat),
      evaluate_divide (fuel + 2) env [Expr.num l 0]
        = some (locatedError "Division by zero" l none, env))
    ∧ (∀ (fuel : Nat) (env : Environment) (l0 : Option Nat) (a : ℚ)
      (p : Option Nat × ℚ) (ps : List (Option Nat × ℚ)),
      (∀ q ∈ p :: ps, q.2 ≠ 0) →
      evaluate_divide (fuel + (p :: ps).length + 2) env
        (Expr.num l0 a :: (p :: ps).map (fun q => Expr.num q.1 q.2))
        = some (.ok (some (Expr.num none
            ((p :: ps).foldl (fun x q => x / q.2) a))), env))
    ∧ (∀ (fuel : Nat) (env : Environment) (la l0 : Option Nat) (a : ℚ)
      (qs1 : List (Option Nat × ℚ)) (rest2 : List Expr),
      (∀ p ∈ qs1, p.2 ≠ 0) →
      evaluate_divide (fuel + qs1.length + 4) env
        (Expr.num la a :: ((qs1.map fun p => Expr.num p.1 p.2)
          ++ Expr.num l0 0 :: rest2))
        = some (locatedError "Division by zero" l0 none, env)) := by
  refine ⟨?_, ?_, ?_, ?_, ?_, ?_⟩
  · with_unfolding_all rfl
  · with_unfolding_all rfl
  · intro fuel env l x hx
    rw [show fuel + 2 = (fuel + 1) + 1 from rfl]
    simp only [evaluate_divide]
    simp only [evaluate]
    rw [if_neg hx]
  · intro fuel env l
    rw [show fuel + 2 = (fuel + 1) + 1 from rfl]
    simp only [evaluate_divide]
    simp only [evaluate]
    simp [Expr.location]
  · intro fuel env l0 a p ps hz
    rw [show fuel + (p :: ps).length + 2 = (fuel + (p :: ps).length + 1) + 1 from rfl]
    simp only [List.map_cons, evaluate_divide]
    rw [show fuel + (p :: ps).length + 1 = (fuel + (p :: ps).length) + 1 from rfl]
    simp only [evaluate]
    rw [show (fuel + (p :: ps).length) + 1 = (fuel + 0) + (p :: ps).length + 1 from by
      omega]
    exact div_loop_fold (p :: ps) (fuel + 0) env a hz
  · intro fuel env la l0 a qs1 rest2 hz
    cases qs1 with
    | nil =>
      simp only [List.map_nil, List.nil_append, List.length_nil]
      rw [show fuel + 0 + 4 = (fuel + 0 + 3) + 1 from rfl]
      simp only [evaluate_divide]
      rw [show fuel + 0 + 3 = (fuel + 0 + 2) + 1 from rfl]
      simp only [evaluate]
      rw [show fuel + 0 + 2 = (fuel + 0) + 0 + 2 from by omega]
      exact div_loop_zero [] (fuel + 0) env a l0 rest2 (by simp)
    | cons p qs =>
      simp only [List.map_cons, List.cons_append, List.length_cons]
      rw [show fuel + (qs.length + 1) + 4 = (fuel + qs.length + 4) + 1 from by omega]
      simp only [evaluate_divide]
      rw [show fuel + qs.length + 4 = (fuel + qs.length + 3) + 1 from rfl]
      simp only [evaluate]
      rw [show fuel + qs.length + 3 = fuel + (p :: qs).length + 2 from by
        simp [List.length_cons]; omega]
      rw [show fuel + (p :: qs).length + 2 + 1 = (fuel + 1) + (p :: qs).length + 2 from by
        omega]
      exact div_loop_zero (p :: qs) (fuel + 1) env a l0 rest2 hz

/-- Claim C7 witness: the reciprocal rule applied to (div 4), the
zero-reciprocal rule applied to (div 0), the fold rule applied to
(div 10 2) and the zero-divisor rule applied to (div 8 0). -/
theorem claim_C7_witness :
    (evaluate_divide (0 + 2) env0 [Expr.num (some 2) 4]
      = some (.ok (some (Expr.num none (1 / 4))), env0))
    ∧ (evaluate_divide (0 + 2) env0 [Expr.num (some 3) 0]
      = some (locatedError "Division by zero" (some 3) none, env0))
    ∧ (evaluate_divide (0 + [((none : Option Nat), (2 : ℚ))].length + 2) env0
        (Expr.num none 10 :: [((none : Option Nat), (2 : ℚ))].map
          (fun q => Expr.num q.1 q.2))
      = some (.ok (some (Expr.num none
          (([((none : Option Nat), (2 : ℚ))]).foldl (fun x q => x / q.2) 10))), env0))
    ∧ (evaluate_divide (0 + ([] : List (Option Nat × ℚ)).length + 4) env0
        (Expr.num none 8 :: ((([] : List (Option Nat × ℚ)).map
            fun p => Expr.num p.1 p.2) ++ Expr.num (some 9) 0 :: []))
      = some (locatedError "Division by zero" (some 9) none, env0)) :=
  ⟨claim_C7_divide.2.2.1 0 env0 (some 2) 4 (by norm_num),
   claim_C7_divide.2.2.2.1 0 env0 (some 3),
   claim_C7_divide.2.2.2.2.1 0 env0 none 10 ((none : Option Nat), (2 : ℚ)) []
      (by intro q hq; simp at hq; rw [hq]; norm_num),
   claim_C7_divide.2.2.2.2.2 0 env0 none (some 9) 8 [] []
      (by intro p hp; simp at hp)⟩

end ArtLang

namespace ArtLang

/-- Claim C8: a token that begins like a number but fails numeric parsing
yields the error "Invalid number format '<token>'" at the token's start
offset with length equal to the token's length; concretely parsing
"123.45.67" returns Err with that message, location 0 and length 9. -/
theorem claim_C8_invalid_number :
    (∀ (it : PeekableIterator) (tok : String) (it2 : PeekableIterator),
      number_token it = (tok, it2) → isNumber tok = false →
      parse_number it
        = (.err [⟨"Invalid number format " ++ squote ++ tok ++ squote,
            some it.pos, some tok.length⟩], it2))
    ∧ parse 20 "123.45.67"
      = some (.err [⟨"Invalid number format " ++ squote ++ "123.45.67" ++ squote,
          some 0, some 9⟩]) := by
  constructor
  · intro it tok it2 hnt hbad
    have hj : jsNumberParse tok = none := by
      cases hjj : jsNumberParse tok with
      | none => rfl
      | some v => rw [isNumber, hjj] at hbad; simp at hbad
    simp only [parse_number, hnt, hj]
  · with_unfolding_all rfl

/-- Claim C8 witness: the general rule applied to an iterator over the
characters of "1.2.3" at position 0. -/
theorem claim_C8_witness :
    parse_number ⟨"1.2.3".data, 0⟩
      = (.err [⟨"Invalid number format " ++ squote ++ "1.2.3" ++ squote,
          some (PeekableIterator.pos ⟨"1.2.3".data, 0⟩),
          some ("1.2.3".length)⟩], ⟨"1.2.3".data, 5⟩) :=
  claim_C8_invalid_number.1 ⟨"1.2.3".data, 0⟩ "1.2.3" ⟨"1.2.3".data, 5⟩
    (by with_unfolding_all rfl) (by with_unfolding_all rfl)

/-- Claim C9: a `let` that shadows an outer binding of x leaves the outer
binding unchanged once the block completes — evaluate_let restores the
symbol table exactly (for any arguments and any outcome) — while inside the
block lookup finds the innermost binding first; concretely
`(let ((x 2)) x)` over outer x = 1 returns 2 and the environment still
binds x to 1. -/
theorem claim_C9_let_shadowing :
    (∀ (fuel : Nat) (env : Environment) (args : List Expr)
      (out : EvalResult × Environment),
      evaluate_let fuel env args = some out →
      out.2.symbolTable = env.symbolTable)
    ∧ (∀ (f : Frame) (t : SymbolTable) (x : String) (v : Expr),
      f.get x = some v → SymbolTable.lookup (f :: t) x = some v)
    ∧ (evaluate 20 (envX 1) (Expr.list none [Expr.sym none "let",
        Expr.list none [Expr.list none [Expr.sym none "x", Expr.num none 2]],
        Expr.sym none "x"])
        = some (.ok (some (Expr.num none 2)), envX 1)
      ∧ (envX 1).symbolTable.lookup "x" = some (Expr.num none 1)) := by
  refine ⟨?_, ?_, ?_, rfl⟩
  · intro fuel env args out h
    exact (tailInv_all fuel).evLet env args out h
  · intro f t x v h
    simp only [SymbolTable.lookup, h]
  · with_unfolding_all rfl

/-- Claim C9 witness: the restoration rule applied to the concrete
`let ((x 2)) x` evaluation over outer x = 1, and the innermost-wins rule
applied to a two-frame table where both frames bind x. -/
theorem claim_C9_witness :
    (({ symbolTable := [[("x", Expr.num none 1)]], canvas := CanvasState.initial } :
        Environment).symbolTable = (envX 1).symbolTable)
    ∧ SymbolTable.lookup
        ([("x", Expr.num none 2)] :: [[("x", Expr.num none 1)]]) "x"
      = some (Expr.num none 2) :=
  ⟨claim_C9_let_shadowing.1 19 (envX 1)
      [Expr.list none [Expr.list none [Expr.sym none "x", Expr.num none 2]],
       Expr.sym none "x"]
      (.ok (some (Expr.num none 2)),
        { symbolTable := [[("x", Expr.num none 1)]], canvas := CanvasState.initial })
      (by with_unfolding_all rfl),
   claim_C9_let_shadowing.2.1 [("x", Expr.num none 2)] [[("x", Expr.num none 1)]]
      "x" (Expr.num none 2) rfl⟩

/-- Claim C10: `set` on a name unbound anywhere in the scope chain errors
("The first argument to set must be a symbol in scope" at the symbol's
offset) with the environment unchanged; on a bound name it always writes
into the innermost scope's table; consequently a `set` inside a `let` on a
name bound only outside creates a local shadow and the outer binding still
holds its old value after the `let` returns — concretely
`(let ((y 0)) (set x 5))` over outer x = 1 returns 5 and leaves x = 1. -/
theorem claim_C10_set_scope :
    (∀ (fuel : Nat) (env : Environment) (l : Option Nat) (x : String)
      (second : Expr),
      env.symbolTable.lookup x = none →
      evaluate_set (fuel + 1) env [Expr.sym l x, second]
        = some (locatedError "The first argument to set must be a symbol in scope"
            l none, env))
    ∧ (∀ (fuel : Nat) (env env3 : Environment) (l : Option Nat) (x : String)
      (second : Expr) (w v : Expr),
      env.symbolTable.lookup x = some w →
      evaluate fuel env second = some (.ok (some v), env3) →
      evaluate_set (fuel + 1) env [Expr.sym l x, second]
        = some (.ok (some v),
            { env3 with symbolTable := env3.symbolTable.set x v }))
    ∧ (evaluate 20 (envX 1) (Expr.list none [Expr.sym none "let",
        Expr.list none [Expr.list none [Expr.sym none "y", Expr.num none 0]],
        Expr.list none [Expr.sym none "set", Expr.sym none "x", Expr.num none 5]])
        = some (.ok (some (Expr.num none 5)), envX 1)
      ∧ (envX 1).symbolTable.lookup "x" = some (Expr.num none 1)) := by
  refine ⟨?_, ?_, ?_, rfl⟩
  · intro fuel env l x second h
    simp only [evaluate_set, h, Expr.location]
  · intro fuel env env3 l x second w v hw hev
    simp only [evaluate_set, hw, hev]
  · with_unfolding_all rfl

/-- Claim C10 witness: the unbound-name rule applied to `set z 1` over the
empty root scope, and the innermost-write rule applied to `set x 5` over
outer x = 1. -/
theorem claim_C10_witness :
    (evaluate_set (5 + 1) env0 [Expr.sym (some 3) "z", Expr.num none 1]
      = some (locatedError "The first argument to set must be a symbol in scope"
          (some 3) none, env0))
    ∧ (evaluate_set (5 + 1) (envX 1) [Expr.sym none "x", Expr.num none 5]
      = some (.ok (some (Expr.num none 5)),
          { envX 1 with symbolTable := (envX 1).symbolTable.set "x" (Expr.num none 5) })) :=
  ⟨claim_C10_set_scope.1 5 env0 (some 3) "z" (Expr.num none 1) rfl,
   claim_C10_set_scope.2.1 5 (envX 1) (envX 1) none "x" (Expr.num none 5)
      (Expr.num none 1) (Expr.num none 5) rfl (by with_unfolding_all rfl)⟩

end ArtLang
